import Mathlib

/-!
# BetterDiscord `PluginManager`: a shallow embedding

Source: `src/src/modules/pluginmanager.js`.

The manager's methods are embedded as total functions with explicit state
passing.  A method's outcome records

* what the call returns, or the value it throws (`Except Thrown _`),
* the manager afterwards (`addonList` and the enabled-state map `state`),
* the effects it performed, in program order (`Effect`): notifications sent
  with `this.emit`, toasts, log lines, and every call into addon code.

Addon code is an input of the model: a hook is either missing, present but not
callable, or a function whose run returns or throws.  Hooks do not call back
into the manager.  The collaborators `Toasts`, `Logger` and `this.emit` are
recorded as effects and do not throw.  Metadata values are JavaScript strings
or `undefined` (`Option String`).

The base class `AddonManager` is not among the sources: `enableAddon` and
`disableAddon`, to which `enablePlugin` and `disablePlugin` delegate, are
modelled from the specification.
-/

namespace PluginManager

/-! ## JavaScript values -/

/-- What a handler reads from a caught value: `err.message` and `err.stack`
(`none` is `undefined`). -/
structure ErrorObj where
  message : Option String
  stack : Option String
  deriving DecidableEq, Repr

/-- A thrown value. -/
inductive Thrown
  /-- Any value other than `null` and `undefined`, in particular every `Error`. -/
  | obj (e : ErrorObj)
  /-- The values `null` and `undefined`: reading a property of them raises. -/
  | nullish
  deriving DecidableEq, Repr

/-- The `TypeError`s the engine raises by itself; their text belongs to the
engine, not to the program, so it is left open. -/
structure Runtime where
  /-- Calling `plugin.<member>` when it is not a function. -/
  notFunction : String → ErrorObj
  /-- Reading property `<member>` of `undefined` or `null`. -/
  readOfUndefined : String → ErrorObj
  /-- Evaluating `new <expr>()` when `<expr>` is not a constructor. -/
  notConstructor : String → ErrorObj

/-- A property that may hold a function. -/
inductive Member (α : Type)
  /-- The property is `undefined`. -/
  | absent
  /-- The property holds a value whose `typeof` is not `"function"`. -/
  | notCallable
  /-- The property holds a function; `run` is what a call of it does. -/
  | fn (run : α)

/-- JavaScript `typeof m === "function"`. -/
def Member.isFunction {α : Type} : Member α → Bool
  | .fn _ => true
  | _ => false

/-- One record of a DOM mutation batch, the payload of `observer`. -/
structure MutationRecord where
  type : String
  target : String
  deriving DecidableEq, Repr

/-- The addon object built by `new addon.type()`. -/
structure Instance where
  getName : Member (Except Thrown (Option String))
  getAuthor : Member (Except Thrown (Option String))
  getDescription : Member (Except Thrown (Option String))
  getVersion : Member (Except Thrown (Option String))
  load : Member (Except Thrown Unit)
  start : Member (Except Thrown Unit)
  stop : Member (Except Thrown Unit)
  onSwitch : Member (Except Thrown Unit)
  observer : Member (MutationRecord → Except Thrown Unit)

/-- The values `module.exports` and `addon.type` can hold. -/
inductive JsVal
  | undefined
  | str (s : String)
  /-- A class; `construct` is what `new` of it does. -/
  | cls (construct : Except Thrown Instance)
  /-- A plain object with its own enumerable properties. -/
  | obj (fields : List (String × JsVal))

/-- JavaScript truthiness of a `JsVal`. -/
def JsVal.truthy : JsVal → Bool
  | .undefined => false
  | .str s => s != ""
  | .cls _ => true
  | .obj _ => true

/-- Property read `v.key` on a `JsVal` (`undefined` when there is none). -/
def JsVal.get : JsVal → String → JsVal
  | .obj fields, key => ((fields.find? (fun kv => kv.1 == key)).map (·.2)).getD .undefined
  | _, _ => .undefined

/-- JavaScript truthiness of a string-or-undefined. -/
def truthy : Option String → Bool
  | some s => s != ""
  | none => false

/-- JavaScript `a || b` on strings-or-undefined. -/
def jsOr (a b : Option String) : Option String :=
  if truthy a then a else b

/-- String conversion of a string-or-undefined, as in a template literal or `+`. -/
def toStr : Option String → String
  | some s => s
  | none => "undefined"

/-! ## Data model -/

/-- The addon record (`addon`, and `meta` while the file is being compiled). -/
structure Addon where
  id : String
  filename : String
  name : Option String
  author : Option String
  description : Option String
  version : Option String
  /-- The field `meta.exports` of the file header. -/
  exports : Option String
  type : JsVal
  plugin : Option Instance

/-- Modelled from the spec: the struct `AddonError` (`../structs/addonerror`),
which the spec gives as `AddonError{name, filename, reason, cause}`, built by
`new AddonError(name, filename, reason, cause)`. -/
structure AddonError where
  name : Option String
  filename : String
  reason : String
  cause : ErrorObj
  deriving DecidableEq, Repr

/-- An observable effect of a manager method. -/
inductive Effect
  /-- The notification `this.emit(event, ...args)`. -/
  | emit (event : String) (args : List String)
  /-- The toast `Toasts.show(text)`. -/
  | toastShow (text : String)
  /-- The toast `Toasts.error(text)`. -/
  | toastError (text : String)
  /-- The log line `Logger.stacktrace(module, text, err)`. -/
  | stacktrace (module : String) (text : String) (err : Thrown)
  /-- The evaluation of `new addon.type()` on a constructor, for addon `id`. -/
  | construct (id : String)
  /-- A call of the function `hook` of the instance of addon `id`. -/
  | call (id : String) (hook : String) (arg : Option MutationRecord)
  deriving DecidableEq, Repr

/-- The manager: `this.addonList` and `this.state`. -/
structure Manager where
  addonList : List Addon
  /-- The map `this.state`; `none` is a missing key. -/
  state : String → Option Bool

/-- Truthiness of `this.state[id]`. -/
def Manager.enabled (m : Manager) (id : String) : Bool :=
  m.state id == some true

/-- The assignment `this.state[id] = value`. -/
def setState (state : String → Option Bool) (id : String) (value : Bool) : String → Option Bool :=
  fun k => if k = id then some value else state k

/-- `get name() {return "PluginManager";}` -/
def managerName : String := "PluginManager"

/-- What a method call did. -/
structure Outcome (α : Type) where
  /-- The value returned (`.ok`) or thrown (`.error`). -/
  ret : Except Thrown α
  manager : Manager
  trace : List Effect

/-- The argument `idOrAddon`. -/
inductive IdOrAddon
  | id (s : String)
  | addon (a : Addon)
  /-- The values `undefined` and `null`. -/
  | nothing

/-- `typeof(idOrAddon) == "string" ? this.addonList.find(p => p.id == idOrAddon) : idOrAddon` -/
def resolve (m : Manager) : IdOrAddon → Option Addon
  | .id s => m.addonList.find? (fun p => p.id == s)
  | .addon a => some a
  | .nothing => none

/-- The method call `plugin.<hook>()` with no guard: raises when `plugin` is
`undefined` or the member is not a function, otherwise runs the function. -/
def callHook (rt : Runtime) (id hook : String) (plugin : Option Instance)
    (member : Instance → Member (Except Thrown Unit)) : Except Thrown Unit × List Effect :=
  match plugin with
  | none => (.error (.obj (rt.readOfUndefined hook)), [])
  | some p =>
    match member p with
    | .fn run => (run, [.call id hook none])
    | _ => (.error (.obj (rt.notFunction hook)), [])

/-- The object literal `{message: err.message, stack: err.stack}` of a handler. -/
def readError (rt : Runtime) : Thrown → Except Thrown ErrorObj
  | .obj e => .ok e
  | .nullish => .error (.obj (rt.readOfUndefined "message"))

/-! ## `startPlugin`, `stopPlugin` -/

/-- `startPlugin(idOrAddon)`, lines 102-117. -/
def startPlugin (rt : Runtime) (m : Manager) (idOrAddon : IdOrAddon) : Outcome (Option AddonError) :=
  match resolve m idOrAddon with
  | none => ⟨.ok none, m, []⟩
  | some addon =>
    match callHook rt addon.id "start" addon.plugin (·.start) with
    | (.ok _, calls) =>
      ⟨.ok none, m,
        calls ++ [.emit "started" [addon.id],
                  .toastShow (toStr addon.name ++ " v" ++ toStr addon.version ++ " has started.")]⟩
    | (.error err, calls) =>
      let m1 : Manager := { m with state := setState m.state addon.id false }
      let effects := calls ++
        [.toastError (toStr addon.name ++ " v" ++ toStr addon.version ++ " could not be started."),
         .stacktrace managerName (toStr addon.name ++ " could not be started.") err]
      match readError rt err with
      | .ok cause => ⟨.ok (some ⟨addon.name, addon.filename, "start() could not be fired.", cause⟩), m1, effects⟩
      | .error raised => ⟨.error raised, m1, effects⟩

/-- `stopPlugin(idOrAddon)`, lines 119-134. -/
def stopPlugin (rt : Runtime) (m : Manager) (idOrAddon : IdOrAddon) : Outcome (Option AddonError) :=
  match resolve m idOrAddon with
  | none => ⟨.ok none, m, []⟩
  | some addon =>
    match callHook rt addon.id "stop" addon.plugin (·.stop) with
    | (.ok _, calls) =>
      ⟨.ok none, m,
        calls ++ [.emit "stopped" [addon.id],
                  .toastShow (toStr addon.name ++ " v" ++ toStr addon.version ++ " has stopped.")]⟩
    | (.error err, calls) =>
      let m1 : Manager := { m with state := setState m.state addon.id false }
      let effects := calls ++
        [.toastError (toStr addon.name ++ " v" ++ toStr addon.version ++ " could not be stopped."),
         .stacktrace managerName (toStr addon.name ++ " could not be stopped.") err]
      match readError rt err with
      | .ok cause => ⟨.ok (some ⟨addon.name, addon.filename, "stop() could not be fired.", cause⟩), m1, effects⟩
      | .error raised => ⟨.error raised, m1, effects⟩

/-- `startAddon(id) {return this.startPlugin(id);}` -/
def startAddon (rt : Runtime) (m : Manager) (id : IdOrAddon) : Outcome (Option AddonError) :=
  startPlugin rt m id

/-- `stopAddon(id) {return this.stopPlugin(id);}` -/
def stopAddon (rt : Runtime) (m : Manager) (id : IdOrAddon) : Outcome (Option AddonError) :=
  stopPlugin rt m id

/-! ## `onSwitch`, `onMutation` -/

/-- The `for` loop of `onSwitch`, lines 146-153, from the current record on. -/
def onSwitchLoop (rt : Runtime) (m : Manager) : List Addon → Except Thrown Unit × List Effect
  | [] => (.ok (), [])
  | addon :: rest =>
    if !m.enabled addon.id then onSwitchLoop rt m rest
    else
      match addon.plugin with
      | none => (.error (.obj (rt.readOfUndefined "onSwitch")), [])
      | some plugin =>
        match plugin.onSwitch with
        | .fn run =>
          let here : List Effect :=
            match run with
            | .ok _ => [.call addon.id "onSwitch" none]
            | .error err =>
              [.call addon.id "onSwitch" none,
               .stacktrace managerName ("Unable to fire onSwitch for " ++ toStr addon.name ++ ".") err]
          let tail := onSwitchLoop rt m rest
          (tail.1, here ++ tail.2)
        | _ => onSwitchLoop rt m rest

/-- `onSwitch()`, lines 144-154. -/
def onSwitch (rt : Runtime) (m : Manager) : Outcome Unit :=
  let loop := onSwitchLoop rt m m.addonList
  ⟨loop.1, m, .emit "page-switch" [] :: loop.2⟩

/-- The `for` loop of `onMutation`, lines 157-164, from the current record on. -/
def onMutationLoop (rt : Runtime) (m : Manager) (mutation : MutationRecord) :
    List Addon → Except Thrown Unit × List Effect
  | [] => (.ok (), [])
  | addon :: rest =>
    if !m.enabled addon.id then onMutationLoop rt m mutation rest
    else
      match addon.plugin with
      | none => (.error (.obj (rt.readOfUndefined "observer")), [])
      | some plugin =>
        match plugin.observer with
        | .fn run =>
          let here : List Effect :=
            match run mutation with
            | .ok _ => [.call addon.id "observer" (some mutation)]
            | .error err =>
              [.call addon.id "observer" (some mutation),
               .stacktrace managerName ("Unable to fire observer for " ++ toStr addon.name ++ ".") err]
          let tail := onMutationLoop rt m mutation rest
          (tail.1, here ++ tail.2)
        | _ => onMutationLoop rt m mutation rest

/-- `onMutation(mutation)`, lines 156-165. -/
def onMutation (rt : Runtime) (m : Manager) (mutation : MutationRecord) : Outcome Unit :=
  let loop := onMutationLoop rt m mutation m.addonList
  ⟨loop.1, m, loop.2⟩

/-! ## `initializeAddon` -/

/-- What `initializeAddon(addon)` did: its return value, the record `addon` as
mutated, the map `this.state`, and the calls into addon code. -/
structure InitOutcome where
  ret : Except Thrown (Option AddonError)
  addon : Addon
  state : String → Option Bool
  trace : List Effect

/-- The expression `new addon.type()` for a truthy `addon.type`. -/
def construct (rt : Runtime) (id : String) : JsVal → Except Thrown Instance × List Effect
  | .cls run => (run, [.construct id])
  | _ => (.error (.obj (rt.notConstructor "addon.type")), [])

/-- The accessor call `thePlugin.<hook>()`, made with no guard. -/
def callAccessor (rt : Runtime) (id hook : String)
    (member : Member (Except Thrown (Option String))) : Except Thrown (Option String) × List Effect :=
  match member with
  | .fn run => (run, [.call id hook none])
  | _ => (.error (.obj (rt.notFunction hook)), [])

/-- The block of the outer `try`, lines 70-82.  Here `ret = .error e` says that
`e` reached the outer handler, and `ret = .ok r` that the block ended (`r` is
the value of its `return`, if it ran one). -/
def initializeAddonBody (rt : Runtime) (state : String → Option Bool) (addon : Addon) : InitOutcome :=
  match construct rt addon.id addon.type with
  | (.error e, t0) => ⟨.error e, addon, state, t0⟩
  | (.ok thePlugin, t0) =>
    let a1 : Addon := { addon with plugin := some thePlugin }
    match callAccessor rt a1.id "getName" thePlugin.getName with
    | (.error e, t1) => ⟨.error e, a1, state, t0 ++ t1⟩
    | (.ok name, t1) =>
      let a2 : Addon := { a1 with name := jsOr name a1.name }
      match callAccessor rt a2.id "getAuthor" thePlugin.getAuthor with
      | (.error e, t2) => ⟨.error e, a2, state, t0 ++ t1 ++ t2⟩
      | (.ok author, t2) =>
        let a3 : Addon := { a2 with author := jsOr (jsOr author a2.author) (some "No author") }
        match callAccessor rt a3.id "getDescription" thePlugin.getDescription with
        | (.error e, t3) => ⟨.error e, a3, state, t0 ++ t1 ++ t2 ++ t3⟩
        | (.ok description, t3) =>
          let a4 : Addon :=
            { a3 with description := jsOr (jsOr description a3.description) (some "No description") }
          match callAccessor rt a4.id "getVersion" thePlugin.getVersion with
          | (.error e, t4) => ⟨.error e, a4, state, t0 ++ t1 ++ t2 ++ t3 ++ t4⟩
          | (.ok version, t4) =>
            let a5 : Addon := { a4 with version := jsOr (jsOr version a4.version) (some "No version") }
            let t := t0 ++ t1 ++ t2 ++ t3 ++ t4
            match thePlugin.load with
            | .fn run =>
              match run with
              | .ok _ => ⟨.ok none, a5, state, t ++ [.call a5.id "load" none]⟩
              | .error error =>
                let state1 := setState state a5.id false
                match readError rt error with
                | .ok cause =>
                  ⟨.ok (some ⟨a5.name, a5.filename, "load() could not be fired.", cause⟩),
                    a5, state1, t ++ [.call a5.id "load" none]⟩
                | .error raised => ⟨.error raised, a5, state1, t ++ [.call a5.id "load" none]⟩
            | _ => ⟨.ok none, a5, state, t⟩

/-- `initializeAddon(addon)`, lines 67-85. -/
def initializeAddon (rt : Runtime) (state : String → Option Bool) (addon : Addon) : InitOutcome :=
  if !addon.type.truthy then
    ⟨.ok (some ⟨addon.name, addon.filename, "Plugin had no exports",
        ⟨some "Plugin had no exports or no name property.", some ""⟩⟩), addon, state, []⟩
  else
    let body := initializeAddonBody rt state addon
    match body.ret with
    | .ok _ => body
    | .error error =>
      match readError rt error with
      | .ok cause =>
        { body with
          ret := .ok (some ⟨body.addon.name, body.addon.filename, "Could not be constructed.", cause⟩) }
      | .error raised => { body with ret := .error raised }

/-- The call `initializeAddon(this.addonList[i])` on a record of the registry.
The record is an object, so what the call assigns to it is seen through
`addonList`; the list itself is not written.  `none` when there is no record at
position `i`. -/
def initializeListed (rt : Runtime) (m : Manager) (i : Nat) : Option (Outcome (Option AddonError)) :=
  match m.addonList[i]? with
  | none => none
  | some addon =>
    let r := initializeAddon rt m.state addon
    some ⟨r.ret, ⟨m.addonList.set i r.addon, r.state⟩, r.trace⟩

/-! ## `enablePlugin`, `disablePlugin` -/

/-- Modelled from the spec: the method `enableAddon` of `AddonManager`
(`./addonmanager`, which is not among the sources), the spec's `enable(id)`,
called with the addon record itself (one of the two forms of `idOrAddon`).  Spec 4.3: `enable` on an already
started addon is a no-op returning success; otherwise it runs the start
transition, which is `startAddon` (lines 99-117); on success it records
`enabled = true`; on failure the error is handed back and the flag is false, as
`startPlugin` left it. -/
def enableAddon (rt : Runtime) (m : Manager) (addon : Addon) : Outcome (Option AddonError) :=
  if m.enabled addon.id then ⟨.ok none, m, []⟩
  else
    let started := startAddon rt m (.addon addon)
    match started.ret with
    | .ok none =>
      ⟨.ok none, { started.manager with state := setState started.manager.state addon.id true },
        started.trace⟩
    | _ => started

/-- Modelled from the spec: the method `disableAddon` of `AddonManager`
(`./addonmanager`, which is not among the sources), the spec's `disable(id)`,
called with the addon record itself (one of the two forms of `idOrAddon`).  Spec 4.3: `disable` on an
already stopped addon is a no-op returning success; otherwise it runs
`stopAddon` (lines 100, 119-134) and records `enabled = false`, on success and
on failure alike. -/
def disableAddon (rt : Runtime) (m : Manager) (addon : Addon) : Outcome (Option AddonError) :=
  if !m.enabled addon.id then ⟨.ok none, m, []⟩
  else
    let stopped := stopAddon rt m (.addon addon)
    ⟨stopped.ret, { stopped.manager with state := setState stopped.manager.state addon.id false },
      stopped.trace⟩

/-- `enablePlugin(idOrAddon) {return this.enableAddon(idOrAddon);}`, line 49. -/
def enablePlugin (rt : Runtime) (m : Manager) (addon : Addon) : Outcome (Option AddonError) :=
  enableAddon rt m addon

/-- `disablePlugin(idOrAddon) {return this.disableAddon(idOrAddon);}`, line 50. -/
def disablePlugin (rt : Runtime) (m : Manager) (addon : Addon) : Outcome (Option AddonError) :=
  disableAddon rt m addon

/-! ## `getFileModification` -/

/-- What `module._compile(fileContent, module.filename)` did: the value it
threw, if any, and `module.exports` afterwards. -/
structure Compiled where
  raised : Option Thrown
  exports : JsVal

/-- The Node module object handed to `getFileModification`. -/
structure Module where
  filename : String
  exports : JsVal
  _compile : String → String → Compiled

/-- The value of `module.exports`: what the file assigned, or the record `meta`
once line 92 has run. -/
inductive Exports
  | value (v : JsVal)
  | record (a : Addon)

/-- What `getFileModification(module, fileContent, meta)` did. -/
structure FileModification where
  ret : Except Thrown String
  /-- The value of `module.exports` afterwards. -/
  exports : Exports
  /-- The object `meta` afterwards. -/
  meta : Addon

/-- `getFileModification(module, fileContent, meta)`, lines 87-97.  The helper
`Utilities.isEmpty` and the built-in `JSON.stringify` are parameters. -/
def getFileModification (isEmpty : JsVal → Bool) (stringify : Addon → String)
    (module : Module) (fileContent : String) (meta : Addon) : FileModification :=
  let compiled := module._compile fileContent module.filename
  match compiled.raised with
  | some e => ⟨.error e, .value compiled.exports, meta⟩
  | none =>
    let didExport := !isEmpty compiled.exports
    if didExport then
      let meta1 : Addon := { meta with type := compiled.exports }
      ⟨.ok "", .record meta1, meta1⟩
    else
      ⟨.ok (fileContent ++ "\nmodule.exports = " ++ stringify meta ++ ";\nmodule.exports.type = "
          ++ toStr (jsOr meta.exports meta.name) ++ ";"), .value compiled.exports, meta⟩

/-! ## Reading a trace -/

/-- The calls into addon code among the effects, in order. -/
def calls (trace : List Effect) : List Effect :=
  trace.filter (fun e => match e with
    | .call _ _ _ => true
    | _ => false)

/-- The record is enabled and its instance has a callable `onSwitch`. -/
def receivesSwitch (m : Manager) (a : Addon) : Bool :=
  m.enabled a.id && (match a.plugin with
    | some p => p.onSwitch.isFunction
    | none => false)

/-- The record is enabled and its instance has a callable `observer`. -/
def receivesMutation (m : Manager) (a : Addon) : Bool :=
  m.enabled a.id && (match a.plugin with
    | some p => p.observer.isFunction
    | none => false)

/-- Every enabled record of the list has an instance. -/
def enabledHaveInstance (m : Manager) : Prop :=
  ∀ a ∈ m.addonList, m.enabled a.id = true → a.plugin.isSome = true

/-- Two records with the same id that differ at most in what their `onSwitch`
and `observer` functions do when they run (return or throw), not in whether the
instance and the functions are there. -/
def sameUpToRuns (a b : Addon) : Prop :=
  a.id = b.id ∧
    match a.plugin, b.plugin with
    | none, none => True
    | some p, some q =>
      p.onSwitch.isFunction = q.onSwitch.isFunction ∧ p.observer.isFunction = q.observer.isFunction
    | _, _ => False

/-! ## Sample data for concrete runs -/

/-- A runtime with fixed texts for the engine errors. -/
def sampleRuntime : Runtime :=
  { notFunction := fun member => ⟨some ("plugin." ++ member ++ " is not a function"), some ""⟩
    readOfUndefined := fun member => ⟨some ("Cannot read property " ++ member ++ " of undefined"), some ""⟩
    notConstructor := fun expr => ⟨some (expr ++ " is not a constructor"), some ""⟩ }

/-- An instance with no member at all. -/
def bareInstance : Instance :=
  { getName := .absent, getAuthor := .absent, getDescription := .absent, getVersion := .absent,
    load := .absent, start := .absent, stop := .absent, onSwitch := .absent, observer := .absent }

/-- The value thrown by `throw new Error("boom")`. -/
def boom : Thrown := .obj ⟨some "boom", some "Error: boom"⟩

/-- A record with the given id and instance, named after its id, with no type. -/
def sampleAddon (id : String) (plugin : Option Instance) : Addon :=
  { id := id, filename := id ++ ".plugin.js", name := some id, author := none, description := none,
    version := none, exports := none, type := .undefined, plugin := plugin }

/-- An instance whose `onSwitch` and `observer` return. -/
def quietListener : Instance :=
  { bareInstance with onSwitch := .fn (.ok ()), observer := .fn (fun _ => .ok ()) }

/-- An instance whose `onSwitch` and `observer` throw `Error("boom")`. -/
def throwingListener : Instance :=
  { bareInstance with onSwitch := .fn (.error boom), observer := .fn (fun _ => .error boom) }

/-- A state map that enables the listed ids. -/
def enableOnly (ids : List String) : String → Option Bool :=
  fun k => if k ∈ ids then some true else none

/-- The addons `[A, B, C, D]`: `A`, `B`, `C` enabled, the hooks of `B` throw, `D` is disabled. -/
def abcManager : Manager :=
  { addonList := [sampleAddon "A" (some quietListener), sampleAddon "B" (some throwingListener),
                  sampleAddon "C" (some quietListener), sampleAddon "D" (some quietListener)]
    state := enableOnly ["A", "B", "C"] }

/-- A mutation record. -/
def sampleMutation : MutationRecord := ⟨"childList", "body"⟩

/-- One record with no instance whose id is marked enabled. -/
def ghostManager : Manager :=
  { addonList := [sampleAddon "ghost" none], state := enableOnly ["ghost"] }

/-- An instance with only `start()` and `stop()`, each doing what is given. -/
def lifecycleOnly (start stop : Except Thrown Unit) : Instance :=
  { bareInstance with start := .fn start, stop := .fn stop }

/-- One addon `boomer`, marked enabled, whose `start()` and `stop()` throw `Error("boom")`. -/
def boomManager : Manager :=
  { addonList := [sampleAddon "boomer" (some (lifecycleOnly (.error boom) (.error boom)))]
    state := enableOnly ["boomer"] }

/-- A file that exported nothing: a record with no type and no instance. -/
def noExportsAddon : Addon := sampleAddon "empty" none

/-- An instance with the four accessors, reporting only a name, and the given `load`. -/
def describedInstance (load : Member (Except Thrown Unit)) : Instance :=
  { bareInstance with
    getName := .fn (.ok (some "Foo Deluxe")), getAuthor := .fn (.ok none),
    getDescription := .fn (.ok (some "")), getVersion := .fn (.ok (some "1.2.0")),
    load := load }

/-- A record named `Foo` by its file header, with the given type and no instance yet. -/
def fooAddon (type : JsVal) : Addon :=
  { id := "Foo", filename := "foo.plugin.js", name := some "Foo", author := some "someone",
    description := none, version := none, exports := none, type := type, plugin := none }

/-- A class with only `start()` and `stop()`. -/
def fooClass : JsVal := .cls (.ok (lifecycleOnly (.ok ()) (.ok ())))

/-- A stand-in for `Utilities.isEmpty` in concrete runs: `undefined`, the empty
string and an object with no own property are empty. -/
def sampleIsEmpty : JsVal → Bool
  | .undefined => true
  | .str s => s == ""
  | .cls _ => false
  | .obj fields => fields.isEmpty

/-- A stand-in for `JSON.stringify` in concrete runs. -/
def sampleStringify : Addon → String :=
  fun a => "\"" ++ toStr a.name ++ "\""

/-- The exports object `{name: "Foo", type: class {start() ...; stop() ...}}`. -/
def fooExports : JsVal := .obj [("name", .str "Foo"), ("type", fooClass)]

/-- The module of `foo.plugin.js`, whose source assigns `fooExports`. -/
def fooModule : Module :=
  { filename := "foo.plugin.js", exports := .obj [], _compile := fun _ _ => ⟨none, fooExports⟩ }

/-- The header metadata of `foo.plugin.js`, which names the addon `foo`. -/
def fooMeta : Addon :=
  { id := "foo", filename := "foo.plugin.js", name := some "foo", author := none,
    description := none, version := none, exports := none, type := .undefined, plugin := none }

/-- A class whose instances have only a `load()` that throws `Error("boom")`. -/
def loadOnlyClass : JsVal := .cls (.ok { bareInstance with load := .fn (.error boom) })

/-- A class whose instances have a `load()` that throws `Error("boom")` and only
the first `k` of the accessors `getName`, `getAuthor`, `getDescription`,
`getVersion`, each returning `undefined`. -/
def loadWithAccessors (k : Nat) : JsVal :=
  .cls (.ok { bareInstance with
    getName := if 0 < k then .fn (.ok none) else .absent,
    getAuthor := if 1 < k then .fn (.ok none) else .absent,
    getDescription := if 2 < k then .fn (.ok none) else .absent,
    getVersion := if 3 < k then .fn (.ok none) else .absent,
    load := .fn (.error boom) })

/-- The addon `boomer`, whose `start()` and `stop()` throw `Error("boom")`. -/
def boomer : Addon := sampleAddon "boomer" (some (lifecycleOnly (.error boom) (.error boom)))

/-- The addon `calm`, whose `start()` and `stop()` return. -/
def calm : Addon := sampleAddon "calm" (some (lifecycleOnly (.ok ()) (.ok ())))

/-- The registry `[boomer, calm]` with no addon enabled. -/
def idleManager : Manager := { addonList := [boomer, calm], state := enableOnly [] }

/-- An instance that defines `getName` and nothing else. -/
def nameOnlyInstance : Instance := { bareInstance with getName := .fn (.ok (some "Foo Deluxe")) }

/-! ## Lemmas on the broadcast loops -/

theorem onSwitchLoop_ok (rt : Runtime) (m : Manager) :
    ∀ l : List Addon, (∀ a ∈ l, m.enabled a.id = true → a.plugin.isSome = true) →
      (onSwitchLoop rt m l).1 = .ok () ∧
      calls (onSwitchLoop rt m l).2
        = (l.filter (receivesSwitch m)).map (fun a => Effect.call a.id "onSwitch" none) := by
  intro l
  induction l with
  | nil => intro _; simp [onSwitchLoop, calls]
  | cons a rest ih =>
    intro h
    have hrest := ih (fun b hb => h b (List.mem_cons_of_mem _ hb))
    have ha := h a (List.mem_cons_self _ _)
    by_cases hen : m.enabled a.id = true
    · have hsome := ha hen
      cases hp : a.plugin with
      | none => simp [hp] at hsome
      | some p =>
        cases hf : p.onSwitch with
        | absent => simpa [onSwitchLoop, hen, hp, hf, receivesSwitch, Member.isFunction] using hrest
        | notCallable => simpa [onSwitchLoop, hen, hp, hf, receivesSwitch, Member.isFunction] using hrest
        | fn run =>
          cases run with
          | ok u =>
            simp only [calls] at hrest
            simp [onSwitchLoop, hen, hp, hf, receivesSwitch, Member.isFunction, calls, hrest]
          | error e =>
            simp only [calls] at hrest
            simp [onSwitchLoop, hen, hp, hf, receivesSwitch, Member.isFunction, calls, hrest]
    · have hen2 : m.enabled a.id = false := by simpa using hen
      simpa [onSwitchLoop, hen2, receivesSwitch] using hrest

theorem onMutationLoop_ok (rt : Runtime) (m : Manager) (mutation : MutationRecord) :
    ∀ l : List Addon, (∀ a ∈ l, m.enabled a.id = true → a.plugin.isSome = true) →
      (onMutationLoop rt m mutation l).1 = .ok () ∧
      calls (onMutationLoop rt m mutation l).2
        = (l.filter (receivesMutation m)).map (fun a => Effect.call a.id "observer" (some mutation)) := by
  intro l
  induction l with
  | nil => intro _; simp [onMutationLoop, calls]
  | cons a rest ih =>
    intro h
    have hrest := ih (fun b hb => h b (List.mem_cons_of_mem _ hb))
    have ha := h a (List.mem_cons_self _ _)
    by_cases hen : m.enabled a.id = true
    · have hsome := ha hen
      cases hp : a.plugin with
      | none => simp [hp] at hsome
      | some p =>
        cases hf : p.observer with
        | absent => simpa [onMutationLoop, hen, hp, hf, receivesMutation, Member.isFunction] using hrest
        | notCallable =>
          simpa [onMutationLoop, hen, hp, hf, receivesMutation, Member.isFunction] using hrest
        | fn run =>
          cases hr : run mutation with
          | ok u =>
            simp only [calls] at hrest
            simp [onMutationLoop, hen, hp, hf, hr, receivesMutation, Member.isFunction, calls, hrest]
          | error e =>
            simp only [calls] at hrest
            simp [onMutationLoop, hen, hp, hf, hr, receivesMutation, Member.isFunction, calls, hrest]
    · have hen2 : m.enabled a.id = false := by simpa using hen
      simpa [onMutationLoop, hen2, receivesMutation] using hrest

theorem onSwitchLoop_ok_iff (rt : Runtime) (m : Manager) :
    ∀ l : List Addon, (onSwitchLoop rt m l).1 = .ok () ↔
      ∀ a ∈ l, m.enabled a.id = true → a.plugin.isSome = true := by
  intro l
  refine ⟨?_, fun h => (onSwitchLoop_ok rt m l h).1⟩
  induction l with
  | nil => intro _ a ha; simp at ha
  | cons a rest ih =>
    intro h b hb
    by_cases hen : m.enabled a.id = true
    · cases hp : a.plugin with
      | none => simp [onSwitchLoop, hen, hp] at h
      | some p =>
        have hrest : (onSwitchLoop rt m rest).1 = .ok () := by
          cases hf : p.onSwitch <;> simpa [onSwitchLoop, hen, hp, hf] using h
        rcases List.mem_cons.1 hb with rfl | hb
        · intro _; simp [hp]
        · exact ih hrest b hb
    · have hen2 : m.enabled a.id = false := by simpa using hen
      have hrest : (onSwitchLoop rt m rest).1 = .ok () := by
        simpa [onSwitchLoop, hen2] using h
      rcases List.mem_cons.1 hb with rfl | hb
      · intro hb2; exact absurd hb2 hen
      · exact ih hrest b hb

theorem onMutationLoop_ok_iff (rt : Runtime) (m : Manager) (mutation : MutationRecord) :
    ∀ l : List Addon, (onMutationLoop rt m mutation l).1 = .ok () ↔
      ∀ a ∈ l, m.enabled a.id = true → a.plugin.isSome = true := by
  intro l
  refine ⟨?_, fun h => (onMutationLoop_ok rt m mutation l h).1⟩
  induction l with
  | nil => intro _ a ha; simp at ha
  | cons a rest ih =>
    intro h b hb
    by_cases hen : m.enabled a.id = true
    · cases hp : a.plugin with
      | none => simp [onMutationLoop, hen, hp] at h
      | some p =>
        have hrest : (onMutationLoop rt m mutation rest).1 = .ok () := by
          cases hf : p.observer <;> simpa [onMutationLoop, hen, hp, hf] using h
        rcases List.mem_cons.1 hb with rfl | hb
        · intro _; simp [hp]
        · exact ih hrest b hb
    · have hen2 : m.enabled a.id = false := by simpa using hen
      have hrest : (onMutationLoop rt m mutation rest).1 = .ok () := by
        simpa [onMutationLoop, hen2] using h
      rcases List.mem_cons.1 hb with rfl | hb
      · intro hb2; exact absurd hb2 hen
      · exact ih hrest b hb

theorem onSwitchLoop_call_mem (rt : Runtime) (m : Manager) (id hook : String)
    (arg : Option MutationRecord) :
    ∀ l : List Addon, Effect.call id hook arg ∈ (onSwitchLoop rt m l).2 →
      ∃ a ∈ l, a.id = id ∧ receivesSwitch m a = true := by
  intro l
  induction l with
  | nil => intro h; simp [onSwitchLoop] at h
  | cons a rest ih =>
    intro h
    have step : Effect.call id hook arg ∈ (onSwitchLoop rt m rest).2 →
        ∃ b ∈ a :: rest, b.id = id ∧ receivesSwitch m b = true := fun h2 =>
      let ⟨b, hb, hb2⟩ := ih h2
      ⟨b, List.mem_cons_of_mem _ hb, hb2⟩
    by_cases hen : m.enabled a.id = true
    · cases hp : a.plugin with
      | none => simp [onSwitchLoop, hen, hp] at h
      | some p =>
        cases hf : p.onSwitch with
        | absent => exact step (by simpa [onSwitchLoop, hen, hp, hf] using h)
        | notCallable => exact step (by simpa [onSwitchLoop, hen, hp, hf] using h)
        | fn run =>
          have hrec : receivesSwitch m a = true := by
            simp [receivesSwitch, hen, hp, hf, Member.isFunction]
          cases run with
          | ok u =>
            simp only [onSwitchLoop, hen, hp, hf, Bool.not_true, Bool.false_eq_true, if_false,
              List.mem_append, List.mem_singleton] at h
            rcases h with h | h
            · injection h with h1
              exact ⟨a, List.mem_cons_self _ _, h1.symm, hrec⟩
            · exact step h
          | error e =>
            simp only [onSwitchLoop, hen, hp, hf, Bool.not_true, Bool.false_eq_true, if_false,
              List.mem_append, List.mem_cons, List.mem_singleton] at h
            rcases h with h | h
            · rcases h with h | h
              · injection h with h1
                exact ⟨a, List.mem_cons_self _ _, h1.symm, hrec⟩
              · rcases h with h | h
                · cases h
                · simp at h
            · exact step h
    · have hen2 : m.enabled a.id = false := by simpa using hen
      exact step (by simpa [onSwitchLoop, hen2] using h)

theorem onMutationLoop_call_mem (rt : Runtime) (m : Manager) (mutation : MutationRecord)
    (id hook : String) (arg : Option MutationRecord) :
    ∀ l : List Addon, Effect.call id hook arg ∈ (onMutationLoop rt m mutation l).2 →
      ∃ a ∈ l, a.id = id ∧ receivesMutation m a = true := by
  intro l
  induction l with
  | nil => intro h; simp [onMutationLoop] at h
  | cons a rest ih =>
    intro h
    have step : Effect.call id hook arg ∈ (onMutationLoop rt m mutation rest).2 →
        ∃ b ∈ a :: rest, b.id = id ∧ receivesMutation m b = true := fun h2 =>
      let ⟨b, hb, hb2⟩ := ih h2
      ⟨b, List.mem_cons_of_mem _ hb, hb2⟩
    by_cases hen : m.enabled a.id = true
    · cases hp : a.plugin with
      | none => simp [onMutationLoop, hen, hp] at h
      | some p =>
        cases hf : p.observer with
        | absent => exact step (by simpa [onMutationLoop, hen, hp, hf] using h)
        | notCallable => exact step (by simpa [onMutationLoop, hen, hp, hf] using h)
        | fn run =>
          have hrec : receivesMutation m a = true := by
            simp [receivesMutation, hen, hp, hf, Member.isFunction]
          cases hr : run mutation with
          | ok u =>
            simp only [onMutationLoop, hen, hp, hf, hr, Bool.not_true, Bool.false_eq_true, if_false,
              List.mem_append, List.mem_singleton] at h
            rcases h with h | h
            · injection h with h1
              exact ⟨a, List.mem_cons_self _ _, h1.symm, hrec⟩
            · exact step h
          | error e =>
            simp only [onMutationLoop, hen, hp, hf, hr, Bool.not_true, Bool.false_eq_true, if_false,
              List.mem_append, List.mem_cons, List.mem_singleton] at h
            rcases h with h | h
            · rcases h with h | h
              · injection h with h1
                exact ⟨a, List.mem_cons_self _ _, h1.symm, hrec⟩
              · rcases h with h | h
                · cases h
                · simp at h
            · exact step h
    · have hen2 : m.enabled a.id = false := by simpa using hen
      exact step (by simpa [onMutationLoop, hen2] using h)

/-- The only value the loop of `onSwitch` can raise is the engine error of the
probe `typeof(plugin.onSwitch)` on a missing instance. -/
theorem onSwitchLoop_ret (rt : Runtime) (m : Manager) :
    ∀ l : List Addon, (onSwitchLoop rt m l).1 = .ok () ∨
      (onSwitchLoop rt m l).1 = .error (.obj (rt.readOfUndefined "onSwitch")) := by
  intro l
  induction l with
  | nil => left; rfl
  | cons a rest ih =>
    by_cases hen : m.enabled a.id = true
    · cases hp : a.plugin with
      | none => right; simp [onSwitchLoop, hen, hp]
      | some p => cases hf : p.onSwitch <;> simpa [onSwitchLoop, hen, hp, hf] using ih
    · have hen2 : m.enabled a.id = false := by simpa using hen
      simpa [onSwitchLoop, hen2] using ih

/-- The only value the loop of `onMutation` can raise is the engine error of the
probe `typeof plugin.observer` on a missing instance. -/
theorem onMutationLoop_ret (rt : Runtime) (m : Manager) (mutation : MutationRecord) :
    ∀ l : List Addon, (onMutationLoop rt m mutation l).1 = .ok () ∨
      (onMutationLoop rt m mutation l).1 = .error (.obj (rt.readOfUndefined "observer")) := by
  intro l
  induction l with
  | nil => left; rfl
  | cons a rest ih =>
    by_cases hen : m.enabled a.id = true
    · cases hp : a.plugin with
      | none => right; simp [onMutationLoop, hen, hp]
      | some p => cases hf : p.observer <;> simpa [onMutationLoop, hen, hp, hf] using ih
    · have hen2 : m.enabled a.id = false := by simpa using hen
      simpa [onMutationLoop, hen2] using ih

/-- A throwing `onSwitch` of an enabled record is logged with the record's name. -/
theorem onSwitchLoop_logs (rt : Runtime) (m : Manager) :
    ∀ l : List Addon, (∀ a ∈ l, m.enabled a.id = true → a.plugin.isSome = true) →
      ∀ a ∈ l, ∀ (p : Instance) (err : Thrown), m.enabled a.id = true → a.plugin = some p →
        p.onSwitch = .fn (.error err) →
        Effect.stacktrace managerName ("Unable to fire onSwitch for " ++ toStr a.name ++ ".") err
          ∈ (onSwitchLoop rt m l).2 := by
  intro l
  induction l with
  | nil => intro _ a ha; simp at ha
  | cons b rest ih =>
    intro h a ha p err hen hp hf
    have hrest := ih (fun c hc => h c (List.mem_cons_of_mem _ hc))
    rcases List.mem_cons.1 ha with rfl | ha
    · simp [onSwitchLoop, hen, hp, hf]
    · have hin := hrest a ha p err hen hp hf
      by_cases henb : m.enabled b.id = true
      · have hsome := h b (List.mem_cons_self _ _) henb
        cases hpb : b.plugin with
        | none => simp [hpb] at hsome
        | some q =>
          cases hfb : q.onSwitch with
          | absent => simpa [onSwitchLoop, henb, hpb, hfb] using hin
          | notCallable => simpa [onSwitchLoop, henb, hpb, hfb] using hin
          | fn run =>
            cases run <;> simp [onSwitchLoop, henb, hpb, hfb, hin]
      · have henb2 : m.enabled b.id = false := by simpa using henb
        simpa [onSwitchLoop, henb2] using hin

/-- A throwing `observer` of an enabled record is logged with the record's name. -/
theorem onMutationLoop_logs (rt : Runtime) (m : Manager) (mutation : MutationRecord) :
    ∀ l : List Addon, (∀ a ∈ l, m.enabled a.id = true → a.plugin.isSome = true) →
      ∀ a ∈ l, ∀ (p : Instance) (run : MutationRecord → Except Thrown Unit) (err : Thrown),
        m.enabled a.id = true → a.plugin = some p → p.observer = .fn run →
        run mutation = .error err →
        Effect.stacktrace managerName ("Unable to fire observer for " ++ toStr a.name ++ ".") err
          ∈ (onMutationLoop rt m mutation l).2 := by
  intro l
  induction l with
  | nil => intro _ a ha; simp at ha
  | cons b rest ih =>
    intro h a ha p run err hen hp hf hr
    have hrest := ih (fun c hc => h c (List.mem_cons_of_mem _ hc))
    rcases List.mem_cons.1 ha with rfl | ha
    · simp [onMutationLoop, hen, hp, hf, hr]
    · have hin := hrest a ha p run err hen hp hf hr
      by_cases henb : m.enabled b.id = true
      · have hsome := h b (List.mem_cons_self _ _) henb
        cases hpb : b.plugin with
        | none => simp [hpb] at hsome
        | some q =>
          cases hfb : q.observer with
          | absent => simpa [onMutationLoop, henb, hpb, hfb] using hin
          | notCallable => simpa [onMutationLoop, henb, hpb, hfb] using hin
          | fn runb =>
            cases hrb : runb mutation <;> simp [onMutationLoop, henb, hpb, hfb, hrb, hin]
      · have henb2 : m.enabled b.id = false := by simpa using henb
        simpa [onMutationLoop, henb2] using hin

/-- Records that differ only in what their hooks do have the same recipients. -/
theorem recipients_of_sameUpToRuns (state : String → Option Bool) (l1 l2 l3 l4 : List Addon)
    (arg : Option MutationRecord) (h : List.Forall₂ sameUpToRuns l1 l2) :
    (l1.filter (receivesSwitch ⟨l3, state⟩)).map (fun a => Effect.call a.id "onSwitch" arg)
        = (l2.filter (receivesSwitch ⟨l4, state⟩)).map (fun a => Effect.call a.id "onSwitch" arg) ∧
    (l1.filter (receivesMutation ⟨l3, state⟩)).map (fun a => Effect.call a.id "observer" arg)
        = (l2.filter (receivesMutation ⟨l4, state⟩)).map (fun a => Effect.call a.id "observer" arg) := by
  induction h with
  | nil => simp
  | @cons a b r1 r2 hab _ ih =>
    obtain ⟨hid, hpl⟩ := hab
    have hs : receivesSwitch ⟨l3, state⟩ a = receivesSwitch ⟨l4, state⟩ b := by
      cases hpa : a.plugin <;> cases hpb : b.plugin <;>
        simp_all [receivesSwitch, Manager.enabled]
    have hm : receivesMutation ⟨l3, state⟩ a = receivesMutation ⟨l4, state⟩ b := by
      cases hpa : a.plugin <;> cases hpb : b.plugin <;>
        simp_all [receivesMutation, Manager.enabled]
    constructor
    · cases hb : receivesSwitch ⟨l4, state⟩ b <;>
        simp [List.filter_cons, hs, hb, hid, ih.1]
    · cases hb : receivesMutation ⟨l4, state⟩ b <;>
        simp [List.filter_cons, hm, hb, hid, ih.2]

/-- Records that differ only in what their hooks do keep the instance invariant. -/
theorem enabledHaveInstance_of_sameUpToRuns (state : String → Option Bool) (l1 l2 : List Addon)
    (h : List.Forall₂ sameUpToRuns l1 l2) (h1 : enabledHaveInstance ⟨l1, state⟩) :
    enabledHaveInstance ⟨l2, state⟩ := by
  induction h with
  | nil => intro a ha; simp at ha
  | @cons a b r1 r2 hab _ ih =>
    intro c hc hen
    rcases List.mem_cons.1 hc with rfl | hc
    · obtain ⟨hid, hpl⟩ := hab
      have ha := h1 a (List.mem_cons_self _ _) (by simpa [Manager.enabled, hid] using hen)
      cases hpa : a.plugin <;> cases hpb : c.plugin <;> simp_all
    · exact ih (fun d hd => h1 d (List.mem_cons_of_mem _ hd)) c hc hen

/-! ## Broadcast: `onSwitch` and `onMutation` -/

/-- C1: when every enabled record has an instance, `onSwitch()` and
`onMutation(mutation)` return, and the hooks they invoke are exactly the
`onSwitch` (resp. `observer`, called with `mutation` itself) of the records that
are enabled and whose instance has that function, once each, in `addonList`
order; the sequence of invocations does not depend on which hooks throw (any
list that differs only in what the hooks do when run gives the same sequence),
and no hook of a disabled id is invoked. -/
theorem broadcast_invokes_enabled_in_order (rt : Runtime) (m : Manager) (mutation : MutationRecord)
    (h : enabledHaveInstance m) :
    ((onSwitch rt m).ret = .ok () ∧
      calls (onSwitch rt m).trace
        = (m.addonList.filter (receivesSwitch m)).map (fun a => Effect.call a.id "onSwitch" none)) ∧
    ((onMutation rt m mutation).ret = .ok () ∧
      calls (onMutation rt m mutation).trace
        = (m.addonList.filter (receivesMutation m)).map
            (fun a => Effect.call a.id "observer" (some mutation))) ∧
    (∀ l2 : List Addon, List.Forall₂ sameUpToRuns m.addonList l2 →
      calls (onSwitch rt ⟨l2, m.state⟩).trace = calls (onSwitch rt m).trace ∧
      calls (onMutation rt ⟨l2, m.state⟩ mutation).trace = calls (onMutation rt m mutation).trace) ∧
    (∀ (id hook : String) (arg : Option MutationRecord), m.enabled id = false →
      Effect.call id hook arg ∉ (onSwitch rt m).trace ∧
      Effect.call id hook arg ∉ (onMutation rt m mutation).trace) := by
  have hs := onSwitchLoop_ok rt m m.addonList h
  have hm := onMutationLoop_ok rt m mutation m.addonList h
  have cs : ∀ m2 : Manager, calls (onSwitch rt m2).trace = calls (onSwitchLoop rt m2 m2.addonList).2 := by
    intro m2; simp [onSwitch, calls]
  refine ⟨⟨hs.1, ?_⟩, ⟨hm.1, hm.2⟩, ?_, ?_⟩
  · rw [cs]; exact hs.2
  · intro l2 hl
    have h2 : enabledHaveInstance ⟨l2, m.state⟩ :=
      enabledHaveInstance_of_sameUpToRuns m.state m.addonList l2 hl h
    have hs2 := onSwitchLoop_ok rt ⟨l2, m.state⟩ l2 h2
    have hm2 := onMutationLoop_ok rt ⟨l2, m.state⟩ mutation l2 h2
    have hr1 := recipients_of_sameUpToRuns m.state m.addonList l2 m.addonList l2 none hl
    have hr2 := recipients_of_sameUpToRuns m.state m.addonList l2 m.addonList l2 (some mutation) hl
    constructor
    · rw [cs, cs, hs.2]
      exact hs2.2.trans hr1.1.symm
    · show calls (onMutationLoop rt ⟨l2, m.state⟩ mutation l2).2
          = calls (onMutationLoop rt m mutation m.addonList).2
      rw [hm.2]
      exact hm2.2.trans hr2.2.symm
  · intro id hook arg hdis
    constructor
    · intro hmem
      have hmem2 : Effect.call id hook arg ∈ (onSwitchLoop rt m m.addonList).2 := by
        simpa [onSwitch] using hmem
      obtain ⟨a, _, ha, hrec⟩ := onSwitchLoop_call_mem rt m id hook arg m.addonList hmem2
      simp [receivesSwitch, ha, hdis] at hrec
    · intro hmem
      obtain ⟨a, _, ha, hrec⟩ := onMutationLoop_call_mem rt m mutation id hook arg m.addonList hmem
      simp [receivesMutation, ha, hdis] at hrec

theorem abcManager_enabledHaveInstance : enabledHaveInstance abcManager := by
  intro a ha _
  simp only [abcManager, List.mem_cons, List.mem_singleton, List.not_mem_nil, or_false] at ha
  rcases ha with rfl | rfl | rfl | rfl <;> rfl

/-- Witness of C1 on `[A, B, C, D]` with `B` throwing and `D` disabled: the
hooks of `A`, `B`, `C` are invoked once each, in that order, and `D` never. -/
theorem broadcast_invokes_enabled_in_order_witness :
    enabledHaveInstance abcManager ∧
    calls (onSwitch sampleRuntime abcManager).trace
      = [Effect.call "A" "onSwitch" none, Effect.call "B" "onSwitch" none,
         Effect.call "C" "onSwitch" none] ∧
    calls (onMutation sampleRuntime abcManager sampleMutation).trace
      = [Effect.call "A" "observer" (some sampleMutation),
         Effect.call "B" "observer" (some sampleMutation),
         Effect.call "C" "observer" (some sampleMutation)] ∧
    Effect.call "D" "onSwitch" none ∉ (onSwitch sampleRuntime abcManager).trace := by
  have key := broadcast_invokes_enabled_in_order sampleRuntime abcManager sampleMutation
    abcManager_enabledHaveInstance
  refine ⟨abcManager_enabledHaveInstance, ?_, ?_, ?_⟩
  · rw [key.1.2]; decide
  · rw [key.2.1.2]; decide
  · exact (key.2.2.2 "D" "onSwitch" none (by decide)).1

/-- Counterexample to C8: with one record that has no instance and whose id is
marked enabled, `onSwitch()` and `onMutation(m)` do not return: the probe
`typeof(plugin.onSwitch)` raises outside the `try`. -/
theorem broadcast_throws_on_enabled_record_without_instance :
    (onSwitch sampleRuntime ghostManager).ret
      = .error (.obj (sampleRuntime.readOfUndefined "onSwitch")) ∧
    (onMutation sampleRuntime ghostManager sampleMutation).ret
      = .error (.obj (sampleRuntime.readOfUndefined "observer")) := by
  constructor <;> rfl

/-- C8 (amended): `onSwitch()` and `onMutation(mutation)` return exactly when
every enabled record has an instance, whatever the hooks do; otherwise they
raise the engine error of reading `onSwitch` (resp. `observer`) of `undefined`,
the `TypeError` of the unguarded probe.  They leave the manager as it was.  When
they return, every enabled hook that throws has been caught and logged with
`Logger.stacktrace` under the manager's name, with the text
`Unable to fire onSwitch for <name>.` (resp. `observer`) and the thrown value.
Every hook they invoke belongs to a record that is enabled and has an instance,
so a record with no instance is never delivered an event. -/
theorem broadcast_returns_iff_enabled_have_instance (rt : Runtime) (m : Manager)
    (mutation : MutationRecord) :
    ((onSwitch rt m).ret = .ok () ↔ enabledHaveInstance m) ∧
    ((onMutation rt m mutation).ret = .ok () ↔ enabledHaveInstance m) ∧
    (¬ enabledHaveInstance m →
      (onSwitch rt m).ret = .error (.obj (rt.readOfUndefined "onSwitch")) ∧
      (onMutation rt m mutation).ret = .error (.obj (rt.readOfUndefined "observer"))) ∧
    (onSwitch rt m).manager = m ∧ (onMutation rt m mutation).manager = m ∧
    (enabledHaveInstance m →
      ∀ a ∈ m.addonList, ∀ p : Instance, m.enabled a.id = true → a.plugin = some p →
        (∀ err, p.onSwitch = .fn (.error err) →
          Effect.stacktrace "PluginManager" ("Unable to fire onSwitch for " ++ toStr a.name ++ ".") err
            ∈ (onSwitch rt m).trace) ∧
        (∀ run err, p.observer = .fn run → run mutation = .error err →
          Effect.stacktrace "PluginManager" ("Unable to fire observer for " ++ toStr a.name ++ ".") err
            ∈ (onMutation rt m mutation).trace)) ∧
    (∀ (id hook : String) (arg : Option MutationRecord),
      (Effect.call id hook arg ∈ (onSwitch rt m).trace ∨
        Effect.call id hook arg ∈ (onMutation rt m mutation).trace) →
      ∃ a ∈ m.addonList, a.id = id ∧ m.enabled a.id = true ∧ a.plugin.isSome = true) := by
  have hs := onSwitchLoop_ok_iff rt m m.addonList
  have hm := onMutationLoop_ok_iff rt m mutation m.addonList
  refine ⟨hs, hm, ?_, rfl, rfl, ?_, ?_⟩
  · intro hno
    constructor
    · rcases onSwitchLoop_ret rt m m.addonList with h | h
      · exact absurd (hs.1 h) hno
      · exact h
    · rcases onMutationLoop_ret rt m mutation m.addonList with h | h
      · exact absurd (hm.1 h) hno
      · exact h
  · intro hinv a ha p hen hp
    constructor
    · intro err hf
      have := onSwitchLoop_logs rt m m.addonList hinv a ha p err hen hp hf
      exact List.mem_cons_of_mem _ this
    · intro run err hf hr
      exact onMutationLoop_logs rt m mutation m.addonList hinv a ha p run err hen hp hf hr
  · intro id hook arg hmem
    rcases hmem with hmem | hmem
    · have hmem2 : Effect.call id hook arg ∈ (onSwitchLoop rt m m.addonList).2 := by
        simpa [onSwitch] using hmem
      obtain ⟨a, ha, hid, hrec⟩ := onSwitchLoop_call_mem rt m id hook arg m.addonList hmem2
      refine ⟨a, ha, hid, ?_⟩
      cases hp : a.plugin <;> simp_all [receivesSwitch]
    · obtain ⟨a, ha, hid, hrec⟩ :=
        onMutationLoop_call_mem rt m mutation id hook arg m.addonList hmem
      refine ⟨a, ha, hid, ?_⟩
      cases hp : a.plugin <;> simp_all [receivesMutation]

/-- Witness of C8 (amended) on `[A, B, C, D]`, where the hooks of `B` throw
`Error("boom")`: both broadcasts return and the fault of `B` is logged; and on
the manager with an enabled record that has no instance, `onSwitch()` raises. -/
theorem broadcast_returns_iff_enabled_have_instance_witness :
    (onSwitch sampleRuntime abcManager).ret = .ok () ∧
    (onMutation sampleRuntime abcManager sampleMutation).ret = .ok () ∧
    Effect.stacktrace "PluginManager" "Unable to fire onSwitch for B." boom
      ∈ (onSwitch sampleRuntime abcManager).trace ∧
    Effect.stacktrace "PluginManager" "Unable to fire observer for B." boom
      ∈ (onMutation sampleRuntime abcManager sampleMutation).trace ∧
    (onSwitch sampleRuntime ghostManager).ret
      = .error (.obj (sampleRuntime.readOfUndefined "onSwitch")) :=
  have key := broadcast_returns_iff_enabled_have_instance sampleRuntime abcManager sampleMutation
  have logs := key.2.2.2.2.2.1 abcManager_enabledHaveInstance
    (sampleAddon "B" (some throwingListener)) (by simp [abcManager]) throwingListener
    (by decide) rfl
  ⟨key.1.2 abcManager_enabledHaveInstance, key.2.1.2 abcManager_enabledHaveInstance,
    logs.1 boom rfl, logs.2 (fun _ => .error boom) boom rfl rfl,
    ((broadcast_returns_iff_enabled_have_instance sampleRuntime ghostManager sampleMutation).2.2.1
      (fun h => absurd (h (sampleAddon "ghost" none) (by simp [ghostManager]) (by decide))
        (by decide))).1⟩

/-! ## `startPlugin` and `stopPlugin` -/

/-- C2: for an addon that `idOrAddon` resolves to, with an instance whose
`start()` throws a value with message `msg` (an `Error`), `startPlugin` returns
the `AddonError` with reason `start() could not be fired.` and that message as
its cause, emits no `started`, and leaves `state[id]` false; and the same for
`stopPlugin`, `stop()` and `stopped`. -/
theorem startPlugin_stopPlugin_report_throwing_hook (rt : Runtime) (m : Manager) (x : IdOrAddon)
    (addon : Addon) (inst : Instance) (msg : String) (stack : Option String)
    (hres : resolve m x = some addon) (hinst : addon.plugin = some inst) :
    (inst.start = .fn (.error (.obj ⟨some msg, stack⟩)) →
      (startPlugin rt m x).ret
        = .ok (some ⟨addon.name, addon.filename, "start() could not be fired.", ⟨some msg, stack⟩⟩) ∧
      (∀ args, Effect.emit "started" args ∉ (startPlugin rt m x).trace) ∧
      (startPlugin rt m x).manager.state addon.id = some false ∧
      (startPlugin rt m x).manager.enabled addon.id = false) ∧
    (inst.stop = .fn (.error (.obj ⟨some msg, stack⟩)) →
      (stopPlugin rt m x).ret
        = .ok (some ⟨addon.name, addon.filename, "stop() could not be fired.", ⟨some msg, stack⟩⟩) ∧
      (∀ args, Effect.emit "stopped" args ∉ (stopPlugin rt m x).trace) ∧
      (stopPlugin rt m x).manager.state addon.id = some false ∧
      (stopPlugin rt m x).manager.enabled addon.id = false) := by
  constructor
  · intro h
    simp [startPlugin, hres, callHook, hinst, h, readError, setState, Manager.enabled]
  · intro h
    simp [stopPlugin, hres, callHook, hinst, h, readError, setState, Manager.enabled]

/-- Witness of C2: `start()` throws `Error("boom")` on an enabled addon. -/
theorem startPlugin_stopPlugin_report_throwing_hook_witness :
    (startPlugin sampleRuntime boomManager (.id "boomer")).ret
      = .ok (some ⟨some "boomer", "boomer.plugin.js", "start() could not be fired.",
          ⟨some "boom", some "Error: boom"⟩⟩) ∧
    boomManager.enabled "boomer" = true ∧
    (startPlugin sampleRuntime boomManager (.id "boomer")).manager.enabled "boomer" = false :=
  have key := (startPlugin_stopPlugin_report_throwing_hook sampleRuntime boomManager (.id "boomer")
    (sampleAddon "boomer" (some (lifecycleOnly (.error boom) (.error boom))))
    (lifecycleOnly (.error boom) (.error boom)) "boom" (some "Error: boom") rfl rfl).1 rfl
  ⟨key.1, by decide, key.2.2.2⟩

/-- C3: for a record with no (truthy) `type`, `initializeAddon` constructs
nothing and calls nothing, leaves record and state as they were, and returns the
`AddonError` with reason `Plugin had no exports` and cause message
`Plugin had no exports or no name property.`; and if the record has no instance,
`startPlugin` on it returns an `AddonError` (reason `start() could not be
fired.`), calls no hook, emits no `started`, and leaves `state[id]` false. -/
theorem initializeAddon_without_type_never_starts (rt : Runtime) (state : String → Option Bool)
    (addon : Addon) (htype : addon.type.truthy = false) :
    (initializeAddon rt state addon).ret
      = .ok (some ⟨addon.name, addon.filename, "Plugin had no exports",
          ⟨some "Plugin had no exports or no name property.", some ""⟩⟩) ∧
    (initializeAddon rt state addon).trace = [] ∧
    (initializeAddon rt state addon).state = state ∧
    (initializeAddon rt state addon).addon.plugin = addon.plugin ∧
    (addon.plugin = none → ∀ (m : Manager) (x : IdOrAddon),
      resolve m x = some (initializeAddon rt state addon).addon →
        (startPlugin rt m x).ret
          = .ok (some ⟨addon.name, addon.filename, "start() could not be fired.",
              rt.readOfUndefined "start"⟩) ∧
        calls (startPlugin rt m x).trace = [] ∧
        (∀ args, Effect.emit "started" args ∉ (startPlugin rt m x).trace) ∧
        (startPlugin rt m x).manager.state addon.id = some false ∧
        (startPlugin rt m x).manager.enabled addon.id = false) := by
  have hinit : (initializeAddon rt state addon).addon = addon := by
    simp [initializeAddon, htype]
  refine ⟨by simp [initializeAddon, htype], by simp [initializeAddon, htype],
    by simp [initializeAddon, htype], by rw [hinit], ?_⟩
  intro hplugin m x hres
  rw [hinit] at hres
  simp [startPlugin, hres, callHook, hplugin, readError, setState, Manager.enabled, calls]

/-- Witness of C3: a file with no exports, whose id is marked enabled. -/
theorem initializeAddon_without_type_never_starts_witness :
    noExportsAddon.type.truthy = false ∧
    (initializeAddon sampleRuntime (enableOnly ["empty"]) noExportsAddon).ret
      = .ok (some ⟨some "empty", "empty.plugin.js", "Plugin had no exports",
          ⟨some "Plugin had no exports or no name property.", some ""⟩⟩) ∧
    (startPlugin sampleRuntime ⟨[noExportsAddon], enableOnly ["empty"]⟩ (.id "empty")).ret
      = .ok (some ⟨some "empty", "empty.plugin.js", "start() could not be fired.",
          sampleRuntime.readOfUndefined "start"⟩) ∧
    (startPlugin sampleRuntime ⟨[noExportsAddon], enableOnly ["empty"]⟩
      (.id "empty")).manager.enabled "empty" = false :=
  have key := initializeAddon_without_type_never_starts sampleRuntime (enableOnly ["empty"])
    noExportsAddon rfl
  have run := key.2.2.2.2 rfl ⟨[noExportsAddon], enableOnly ["empty"]⟩ (.id "empty") rfl
  ⟨rfl, key.1, run.1, run.2.2.2.2⟩

/-- Counterexample to C9: for an id that matches no record, `startPlugin` and
`stopPlugin` return `undefined`: no `AddonError` is returned and none is raised. -/
theorem startPlugin_stopPlugin_unknown_id_return_nothing :
    (startPlugin sampleRuntime abcManager (.id "nobody")).ret = .ok none ∧
    (stopPlugin sampleRuntime abcManager (.id "nobody")).ret = .ok none := by
  constructor <;> rfl

/-- C9 (amended): for an id that matches no record of `addonList`,
`startPlugin(id)` and `stopPlugin(id)` return `undefined` at once (line 104,
line 121): they raise nothing, invoke no hook, emit nothing, and leave the
manager, hence the enabled-state map, as it was. -/
theorem startPlugin_stopPlugin_unknown_id (rt : Runtime) (m : Manager) (id : String)
    (hno : ∀ a ∈ m.addonList, a.id ≠ id) :
    (startPlugin rt m (.id id)).ret = .ok none ∧ (startPlugin rt m (.id id)).trace = [] ∧
    (startPlugin rt m (.id id)).manager = m ∧
    (stopPlugin rt m (.id id)).ret = .ok none ∧ (stopPlugin rt m (.id id)).trace = [] ∧
    (stopPlugin rt m (.id id)).manager = m := by
  have hres : resolve m (.id id) = none := by
    simp only [resolve, List.find?_eq_none]
    intro a ha
    simpa using hno a ha
  simp [startPlugin, stopPlugin, hres]

/-- Witness of C9 (amended): the id `nobody` in the registry `[A, B, C, D]`. -/
theorem startPlugin_stopPlugin_unknown_id_witness :
    (∀ a ∈ abcManager.addonList, a.id ≠ "nobody") ∧
    (startPlugin sampleRuntime abcManager (.id "nobody")).ret = .ok none ∧
    (startPlugin sampleRuntime abcManager (.id "nobody")).trace = [] :=
  have hno : ∀ a ∈ abcManager.addonList, a.id ≠ "nobody" := by
    intro a ha
    simp only [abcManager, List.mem_cons, List.mem_singleton, List.not_mem_nil, or_false] at ha
    rcases ha with rfl | rfl | rfl | rfl <;> decide
  have key := startPlugin_stopPlugin_unknown_id sampleRuntime abcManager "nobody" hno
  ⟨hno, key.1, key.2.1⟩

theorem startPlugin_calls (rt : Runtime) (m : Manager) (x : IdOrAddon) (addon : Addon)
    (inst : Instance) (hres : resolve m x = some addon) (hinst : addon.plugin = some inst)
    (hfn : inst.start.isFunction = true) :
    calls (startPlugin rt m x).trace = [Effect.call addon.id "start" none] := by
  cases hs : inst.start with
  | absent => simp [hs, Member.isFunction] at hfn
  | notCallable => simp [hs, Member.isFunction] at hfn
  | fn run =>
    cases run with
    | ok u => simp [startPlugin, hres, callHook, hinst, hs, calls]
    | error e => cases e <;> simp [startPlugin, hres, callHook, hinst, hs, calls, readError]

theorem startPlugin_calls_length (rt : Runtime) (m : Manager) (x : IdOrAddon) :
    (calls (startPlugin rt m x).trace).length ≤ 1 := by
  cases hres : resolve m x with
  | none => simp [startPlugin, hres, calls]
  | some addon =>
    cases hp : addon.plugin with
    | none => simp [startPlugin, hres, callHook, hp, calls, readError]
    | some p =>
      cases hs : p.start with
      | absent => simp [startPlugin, hres, callHook, hp, hs, calls, readError]
      | notCallable => simp [startPlugin, hres, callHook, hp, hs, calls, readError]
      | fn run =>
        cases run with
        | ok u => simp [startPlugin, hres, callHook, hp, hs, calls]
        | error e => cases e <;> simp [startPlugin, hres, callHook, hp, hs, calls, readError]

theorem stopPlugin_calls_length (rt : Runtime) (m : Manager) (x : IdOrAddon) :
    (calls (stopPlugin rt m x).trace).length ≤ 1 := by
  cases hres : resolve m x with
  | none => simp [stopPlugin, hres, calls]
  | some addon =>
    cases hp : addon.plugin with
    | none => simp [stopPlugin, hres, callHook, hp, calls, readError]
    | some p =>
      cases hs : p.stop with
      | absent => simp [stopPlugin, hres, callHook, hp, hs, calls, readError]
      | notCallable => simp [stopPlugin, hres, callHook, hp, hs, calls, readError]
      | fn run =>
        cases run with
        | ok u => simp [stopPlugin, hres, callHook, hp, hs, calls]
        | error e => cases e <;> simp [stopPlugin, hres, callHook, hp, hs, calls, readError]

/-- A call effect occurs in a trace as often as among its calls. -/
theorem count_call_le_calls_length (trace : List Effect) (id hook : String)
    (arg : Option MutationRecord) :
    trace.count (Effect.call id hook arg) ≤ (calls trace).length := by
  have h : (calls trace).count (Effect.call id hook arg) = trace.count (Effect.call id hook arg) := by
    unfold calls
    exact List.count_filter (by simp)
  rw [← h]
  exact List.count_le_length _ _

/-- Counterexample to C7: `enable` twice in a row on the registered addon
`boomer`, whose `start()` throws: the first call fails and leaves the addon not
started, so the second call runs the start transition again, and `start()` is
invoked twice. -/
theorem enablePlugin_twice_invokes_throwing_start_twice :
    ((enablePlugin sampleRuntime idleManager boomer).trace ++
      (enablePlugin sampleRuntime (enablePlugin sampleRuntime idleManager boomer).manager
        boomer).trace).count (Effect.call "boomer" "start" none) = 2 := by
  decide

/-- C7 (amended): `enable(x)` on an already started addon is a no-op that
returns success and invokes nothing; when a first `enable(x)` returns success
the addon is started, the second call is such a no-op, and the two calls invoke
`start()` at most once.  When the addon is not started and its `start()` throws,
the first call returns the `start()` error and leaves it not started, and the
second call invokes `start()` again.  `disable(x)` on an already stopped addon
is a no-op that returns success; after any `disable(x)` the addon is stopped,
the second `disable(x)` is such a no-op, and the two calls invoke `stop()` at
most once. -/
theorem enablePlugin_disablePlugin_twice (rt : Runtime) (m : Manager) (addon : Addon) :
    (m.enabled addon.id = true →
      (enablePlugin rt m addon).ret = .ok none ∧ (enablePlugin rt m addon).manager = m ∧
      (enablePlugin rt m addon).trace = []) ∧
    ((enablePlugin rt m addon).ret = .ok none →
      (enablePlugin rt m addon).manager.enabled addon.id = true ∧
      (enablePlugin rt (enablePlugin rt m addon).manager addon).ret = .ok none ∧
      (enablePlugin rt (enablePlugin rt m addon).manager addon).trace = [] ∧
      ((enablePlugin rt m addon).trace ++
        (enablePlugin rt (enablePlugin rt m addon).manager addon).trace).count
          (Effect.call addon.id "start" none) ≤ 1) ∧
    (∀ (inst : Instance) (e : ErrorObj), m.enabled addon.id = false → addon.plugin = some inst →
      inst.start = .fn (.error (.obj e)) →
      (enablePlugin rt m addon).ret
        = .ok (some ⟨addon.name, addon.filename, "start() could not be fired.", e⟩) ∧
      (enablePlugin rt m addon).manager.enabled addon.id = false ∧
      calls (enablePlugin rt (enablePlugin rt m addon).manager addon).trace
        = [Effect.call addon.id "start" none]) ∧
    (m.enabled addon.id = false →
      (disablePlugin rt m addon).ret = .ok none ∧ (disablePlugin rt m addon).manager = m ∧
      (disablePlugin rt m addon).trace = []) ∧
    ((disablePlugin rt m addon).manager.enabled addon.id = false ∧
      (disablePlugin rt (disablePlugin rt m addon).manager addon).ret = .ok none ∧
      (disablePlugin rt (disablePlugin rt m addon).manager addon).trace = [] ∧
      ((disablePlugin rt m addon).trace ++
        (disablePlugin rt (disablePlugin rt m addon).manager addon).trace).count
          (Effect.call addon.id "stop" none) ≤ 1) := by
  have noop : ∀ m2 : Manager, m2.enabled addon.id = true →
      enablePlugin rt m2 addon = ⟨.ok none, m2, []⟩ := by
    intro m2 h
    simp only [enablePlugin, enableAddon, h, if_true]
  have noopd : ∀ m2 : Manager, m2.enabled addon.id = false →
      disablePlugin rt m2 addon = ⟨.ok none, m2, []⟩ := by
    intro m2 h
    simp only [disablePlugin, disableAddon, h, Bool.not_false, if_true]
  have idle : ∀ m2 : Manager, m2.enabled addon.id = false →
      enablePlugin rt m2 addon
        = (match (startPlugin rt m2 (.addon addon)).ret with
          | .ok none =>
            ⟨.ok none,
              { (startPlugin rt m2 (.addon addon)).manager with
                state := setState (startPlugin rt m2 (.addon addon)).manager.state addon.id true },
              (startPlugin rt m2 (.addon addon)).trace⟩
          | _ => startPlugin rt m2 (.addon addon)) := by
    intro m2 h
    simp only [enablePlugin, enableAddon, startAddon, h, Bool.false_eq_true, if_false]
  have busy : ∀ m2 : Manager, m2.enabled addon.id = true →
      disablePlugin rt m2 addon
        = ⟨(stopPlugin rt m2 (.addon addon)).ret,
            { (stopPlugin rt m2 (.addon addon)).manager with
              state := setState (stopPlugin rt m2 (.addon addon)).manager.state addon.id false },
            (stopPlugin rt m2 (.addon addon)).trace⟩ := by
    intro m2 h
    simp only [disablePlugin, disableAddon, stopAddon, h, Bool.not_true, Bool.false_eq_true,
      if_false]
  have hstarted : (enablePlugin rt m addon).ret = .ok none →
      (enablePlugin rt m addon).manager.enabled addon.id = true := by
    intro hret
    by_cases hen : m.enabled addon.id = true
    · rw [noop m hen]; exact hen
    · have hen2 : m.enabled addon.id = false := by simpa using hen
      rw [idle m hen2] at hret ⊢
      cases hs : (startPlugin rt m (.addon addon)).ret with
      | error t => rw [hs] at hret; simp [hs] at hret
      | ok r =>
        cases r with
        | some err => rw [hs] at hret; simp [hs] at hret
        | none => simp [Manager.enabled, setState]
  have hcount : (enablePlugin rt m addon).trace.count (Effect.call addon.id "start" none) ≤ 1 := by
    by_cases hen : m.enabled addon.id = true
    · rw [noop m hen]; simp
    · have hen2 : m.enabled addon.id = false := by simpa using hen
      have htrace : (enablePlugin rt m addon).trace = (startPlugin rt m (.addon addon)).trace := by
        rw [idle m hen2]
        cases hs : (startPlugin rt m (.addon addon)).ret with
        | error t => rfl
        | ok r => cases r <;> rfl
      rw [htrace]
      exact le_trans (count_call_le_calls_length _ _ _ _) (startPlugin_calls_length rt m _)
  have hstopped : (disablePlugin rt m addon).manager.enabled addon.id = false := by
    by_cases hen : m.enabled addon.id = true
    · rw [busy m hen]; simp [Manager.enabled, setState]
    · have hen2 : m.enabled addon.id = false := by simpa using hen
      rw [noopd m hen2]; exact hen2
  have hcountd : (disablePlugin rt m addon).trace.count (Effect.call addon.id "stop" none) ≤ 1 := by
    by_cases hen : m.enabled addon.id = true
    · rw [busy m hen]
      exact le_trans (count_call_le_calls_length _ _ _ _) (stopPlugin_calls_length rt m _)
    · have hen2 : m.enabled addon.id = false := by simpa using hen
      rw [noopd m hen2]; simp
  refine ⟨?_, ?_, ?_, ?_, ?_⟩
  · intro hen
    rw [noop m hen]
    exact ⟨rfl, rfl, rfl⟩
  · intro hret
    have h2 := noop _ (hstarted hret)
    refine ⟨hstarted hret, by rw [h2], by rw [h2], ?_⟩
    rw [h2]
    simpa using hcount
  · intro inst e hen hp hs
    have hrun : ∀ m2 : Manager, startPlugin rt m2 (.addon addon)
        = ⟨.ok (some ⟨addon.name, addon.filename, "start() could not be fired.", e⟩),
            { m2 with state := setState m2.state addon.id false },
            [.call addon.id "start" none,
             .toastError (toStr addon.name ++ " v" ++ toStr addon.version ++ " could not be started."),
             .stacktrace managerName (toStr addon.name ++ " could not be started.") (.obj e)]⟩ := by
      intro m2
      simp [startPlugin, resolve, callHook, hp, hs, readError]
    have hfirst : enablePlugin rt m addon = startPlugin rt m (.addon addon) := by
      rw [idle m hen, hrun m]
    have hen3 : (startPlugin rt m (.addon addon)).manager.enabled addon.id = false := by
      rw [hrun m]; simp [Manager.enabled, setState]
    have hsecond : enablePlugin rt (startPlugin rt m (.addon addon)).manager addon
        = startPlugin rt (startPlugin rt m (.addon addon)).manager (.addon addon) := by
      rw [idle _ hen3, hrun _]
    rw [hfirst]
    refine ⟨by rw [hrun m], hen3, ?_⟩
    rw [hsecond, hrun _]
    simp [calls]
  · intro hen
    rw [noopd m hen]
    exact ⟨rfl, rfl, rfl⟩
  · have h2 := noopd _ hstopped
    refine ⟨hstopped, by rw [h2], by rw [h2], ?_⟩
    rw [h2]
    simpa using hcountd

/-- Witness of C7 (amended) on the registry `[boomer, calm]` with nothing
enabled: `enable(calm)` twice invokes `start()` once, the second call being a
no-op; `enable(boomer)` fails and leaves `boomer` not started. -/
theorem enablePlugin_disablePlugin_twice_witness :
    (enablePlugin sampleRuntime idleManager calm).ret = .ok none ∧
    (enablePlugin sampleRuntime idleManager calm).manager.enabled "calm" = true ∧
    (enablePlugin sampleRuntime (enablePlugin sampleRuntime idleManager calm).manager calm).trace
      = [] ∧
    ((enablePlugin sampleRuntime idleManager calm).trace ++
      (enablePlugin sampleRuntime (enablePlugin sampleRuntime idleManager calm).manager
        calm).trace).count (Effect.call "calm" "start" none) = 1 ∧
    (enablePlugin sampleRuntime idleManager boomer).manager.enabled "boomer" = false :=
  have key := (enablePlugin_disablePlugin_twice sampleRuntime idleManager calm).2.1 rfl
  have fails := (enablePlugin_disablePlugin_twice sampleRuntime idleManager boomer).2.2.1
    (lifecycleOnly (.error boom) (.error boom)) ⟨some "boom", some "Error: boom"⟩
    (by decide) rfl rfl
  ⟨rfl, key.1, key.2.2.1, by decide, fails.2.1⟩

/-! ## `initializeAddon` -/

/-- C4: when `new addon.type()` throws a value with message `msg` (an `Error`),
`initializeAddon` returns the `AddonError` with reason `Could not be
constructed.` and that message as its cause; the record is as it was (no
instance is attached), the state map is as it was, and no function of the addon
is called, `load()` in particular. -/
theorem initializeAddon_constructor_throws (rt : Runtime) (state : String → Option Bool)
    (addon : Addon) (msg : String) (stack : Option String)
    (htype : addon.type = .cls (.error (.obj ⟨some msg, stack⟩))) :
    (initializeAddon rt state addon).ret
      = .ok (some ⟨addon.name, addon.filename, "Could not be constructed.", ⟨some msg, stack⟩⟩) ∧
    (initializeAddon rt state addon).addon = addon ∧
    (addon.plugin = none → (initializeAddon rt state addon).addon.plugin = none) ∧
    (initializeAddon rt state addon).state = state ∧
    calls (initializeAddon rt state addon).trace = [] ∧
    (∀ arg, Effect.call addon.id "load" arg ∉ (initializeAddon rt state addon).trace) := by
  have hbody : initializeAddonBody rt state addon
      = ⟨.error (.obj ⟨some msg, stack⟩), addon, state, [.construct addon.id]⟩ := by
    simp [initializeAddonBody, construct, htype]
  have hinit : initializeAddon rt state addon
      = ⟨.ok (some ⟨addon.name, addon.filename, "Could not be constructed.", ⟨some msg, stack⟩⟩),
          addon, state, [.construct addon.id]⟩ := by
    simp [initializeAddon, htype, JsVal.truthy, hbody, readError]
  rw [hinit]
  simp [calls]

/-- Witness of C4: the constructor throws `Error("boom")`. -/
theorem initializeAddon_constructor_throws_witness :
    (initializeAddon sampleRuntime (enableOnly ["Foo"]) (fooAddon (.cls (.error boom)))).ret
      = .ok (some ⟨some "Foo", "foo.plugin.js", "Could not be constructed.",
          ⟨some "boom", some "Error: boom"⟩⟩) ∧
    (initializeAddon sampleRuntime (enableOnly ["Foo"]) (fooAddon (.cls (.error boom)))).addon.plugin
      = none :=
  have key := initializeAddon_constructor_throws sampleRuntime (enableOnly ["Foo"])
    (fooAddon (.cls (.error boom))) "boom" (some "Error: boom") rfl
  ⟨key.1, key.2.2.1 rfl⟩

/-- The block of the outer `try` when the constructor and the four accessor
calls return: the record after line 75 and the trace up to there. -/
theorem initializeAddonBody_constructed (rt : Runtime) (state : String → Option Bool)
    (addon : Addon) (inst : Instance) (n au d v : Option String)
    (htype : addon.type = .cls (.ok inst))
    (hn : inst.getName = .fn (.ok n)) (hau : inst.getAuthor = .fn (.ok au))
    (hd : inst.getDescription = .fn (.ok d)) (hv : inst.getVersion = .fn (.ok v)) :
    (initializeAddonBody rt state addon).addon
      = { addon with
          plugin := some inst, name := jsOr n addon.name,
          author := jsOr (jsOr au addon.author) (some "No author"),
          description := jsOr (jsOr d addon.description) (some "No description"),
          version := jsOr (jsOr v addon.version) (some "No version") } ∧
    (∀ err, inst.load = .fn (.error err) →
      (initializeAddonBody rt state addon).ret
        = (readError rt err).map
            (fun cause => some ⟨jsOr n addon.name, addon.filename, "load() could not be fired.", cause⟩) ∧
      (initializeAddonBody rt state addon).state = setState state addon.id false) ∧
    ((inst.load = .fn (.ok ()) ∨ inst.load.isFunction = false) →
      (initializeAddonBody rt state addon).ret = .ok none ∧
      (initializeAddonBody rt state addon).state = state) ∧
    (inst.load.isFunction = false →
      ∀ arg, Effect.call addon.id "load" arg ∉ (initializeAddonBody rt state addon).trace) := by
  refine ⟨?_, ?_, ?_, ?_⟩
  · cases hl : inst.load with
    | absent => simp [initializeAddonBody, construct, htype, callAccessor, hn, hau, hd, hv, hl]
    | notCallable => simp [initializeAddonBody, construct, htype, callAccessor, hn, hau, hd, hv, hl]
    | fn run =>
      cases run with
      | ok u => simp [initializeAddonBody, construct, htype, callAccessor, hn, hau, hd, hv, hl]
      | error e =>
        cases e <;>
          simp [initializeAddonBody, construct, htype, callAccessor, hn, hau, hd, hv, hl, readError]
  · intro err hl
    cases err <;>
      simp [initializeAddonBody, construct, htype, callAccessor, hn, hau, hd, hv, hl, readError,
        Except.map]
  · intro hl
    rcases hl with hl | hl
    · simp [initializeAddonBody, construct, htype, callAccessor, hn, hau, hd, hv, hl]
    · cases hl2 : inst.load with
      | absent => simp [initializeAddonBody, construct, htype, callAccessor, hn, hau, hd, hv, hl2]
      | notCallable =>
        simp [initializeAddonBody, construct, htype, callAccessor, hn, hau, hd, hv, hl2]
      | fn run => simp [hl2, Member.isFunction] at hl
  · intro hl arg
    cases hl2 : inst.load with
    | absent => simp [initializeAddonBody, construct, htype, callAccessor, hn, hau, hd, hv, hl2]
    | notCallable => simp [initializeAddonBody, construct, htype, callAccessor, hn, hau, hd, hv, hl2]
    | fn run => simp [hl2, Member.isFunction] at hl

/-- When the block of the outer `try` ends without an exception, the outer
handler does not run. -/
theorem initializeAddon_eq_body (rt : Runtime) (state : String → Option Bool) (addon : Addon)
    (r : Option AddonError) (htype : addon.type.truthy = true)
    (hret : (initializeAddonBody rt state addon).ret = .ok r) :
    initializeAddon rt state addon = initializeAddonBody rt state addon := by
  simp [initializeAddon, htype, hret]

/-- Counterexample to C5: the constructor succeeds and `load()` throws
`Error("boom")`, but the instance has no `getName`: `initializeAddon` reports
`Could not be constructed.`, not a `load()` error, never calls `load()`, and
leaves `state[id]` true.  The same happens when the first accessor that is
missing is `getAuthor`, `getDescription` or `getVersion`. -/
theorem initializeAddon_load_not_reached_without_accessors :
    (initializeAddon sampleRuntime (enableOnly ["Foo"]) (fooAddon loadOnlyClass)).ret
      = .ok (some ⟨some "Foo", "foo.plugin.js", "Could not be constructed.",
          sampleRuntime.notFunction "getName"⟩) ∧
    (initializeAddon sampleRuntime (enableOnly ["Foo"]) (fooAddon loadOnlyClass)).state "Foo"
      = some true ∧
    calls (initializeAddon sampleRuntime (enableOnly ["Foo"]) (fooAddon loadOnlyClass)).trace = [] ∧
    (initializeAddon sampleRuntime (enableOnly ["Foo"]) (fooAddon (loadWithAccessors 1))).ret
      = .ok (some ⟨some "Foo", "foo.plugin.js", "Could not be constructed.",
          sampleRuntime.notFunction "getAuthor"⟩) ∧
    (initializeAddon sampleRuntime (enableOnly ["Foo"]) (fooAddon (loadWithAccessors 2))).ret
      = .ok (some ⟨some "Foo", "foo.plugin.js", "Could not be constructed.",
          sampleRuntime.notFunction "getDescription"⟩) ∧
    (initializeAddon sampleRuntime (enableOnly ["Foo"]) (fooAddon (loadWithAccessors 3))).ret
      = .ok (some ⟨some "Foo", "foo.plugin.js", "Could not be constructed.",
          sampleRuntime.notFunction "getVersion"⟩) ∧
    (initializeAddon sampleRuntime (enableOnly ["Foo"]) (fooAddon (loadWithAccessors 4))).ret
      = .ok (some ⟨some "Foo", "foo.plugin.js", "load() could not be fired.",
          ⟨some "boom", some "Error: boom"⟩⟩) := by
  refine ⟨rfl, by decide, by decide, rfl, rfl, rfl, rfl⟩

/-- With no callable `load`, whatever the accessors do: the state map is as it
was, the instance is attached, `load` is not called, and an error that is
returned is the one of the outer handler. -/
theorem initializeAddon_without_load (rt : Runtime) (state : String → Option Bool)
    (addon : Addon) (inst : Instance) (htype : addon.type = .cls (.ok inst))
    (hl : inst.load.isFunction = false) :
    (initializeAddon rt state addon).state = state ∧
    (initializeAddon rt state addon).addon.plugin = some inst ∧
    (∀ arg, Effect.call addon.id "load" arg ∉ (initializeAddon rt state addon).trace) ∧
    (∀ err, (initializeAddon rt state addon).ret = .ok (some err) →
      err.reason = "Could not be constructed.") := by
  have main : ∀ _ : inst.load = .absent ∨ inst.load = .notCallable,
      (initializeAddon rt state addon).state = state ∧
      (initializeAddon rt state addon).addon.plugin = some inst ∧
      (∀ arg, Effect.call addon.id "load" arg ∉ (initializeAddon rt state addon).trace) ∧
      (∀ err, (initializeAddon rt state addon).ret = .ok (some err) →
        err.reason = "Could not be constructed.") := by
    intro hl3
    rcases hl3 with hl2 | hl2
    all_goals
      cases h0 : inst.getName with
      | absent => simp [initializeAddon, JsVal.truthy, initializeAddonBody, construct, htype, callAccessor, readError, hl2, h0]
      | notCallable => simp [initializeAddon, JsVal.truthy, initializeAddonBody, construct, htype, callAccessor, readError, hl2, h0]
      | fn run =>
        cases run with
        | error e => cases e <;> simp [initializeAddon, JsVal.truthy, initializeAddonBody, construct, htype, callAccessor, readError, hl2, h0]
        | ok val =>
          cases h1 : inst.getAuthor with
          | absent => simp [initializeAddon, JsVal.truthy, initializeAddonBody, construct, htype, callAccessor, readError, hl2, h0, h1]
          | notCallable => simp [initializeAddon, JsVal.truthy, initializeAddonBody, construct, htype, callAccessor, readError, hl2, h0, h1]
          | fn run =>
            cases run with
            | error e => cases e <;> simp [initializeAddon, JsVal.truthy, initializeAddonBody, construct, htype, callAccessor, readError, hl2, h0, h1]
            | ok val =>
              cases h2 : inst.getDescription with
              | absent => simp [initializeAddon, JsVal.truthy, initializeAddonBody, construct, htype, callAccessor, readError, hl2, h0, h1, h2]
              | notCallable => simp [initializeAddon, JsVal.truthy, initializeAddonBody, construct, htype, callAccessor, readError, hl2, h0, h1, h2]
              | fn run =>
                cases run with
                | error e => cases e <;> simp [initializeAddon, JsVal.truthy, initializeAddonBody, construct, htype, callAccessor, readError, hl2, h0, h1, h2]
                | ok val =>
                  cases h3 : inst.getVersion with
                  | absent => simp [initializeAddon, JsVal.truthy, initializeAddonBody, construct, htype, callAccessor, readError, hl2, h0, h1, h2, h3]
                  | notCallable => simp [initializeAddon, JsVal.truthy, initializeAddonBody, construct, htype, callAccessor, readError, hl2, h0, h1, h2, h3]
                  | fn run =>
                    cases run with
                    | error e => cases e <;> simp [initializeAddon, JsVal.truthy, initializeAddonBody, construct, htype, callAccessor, readError, hl2, h0, h1, h2, h3]
                    | ok val =>
                      simp [initializeAddon, JsVal.truthy, initializeAddonBody, construct, htype, callAccessor, readError, hl2, h0, h1, h2, h3]
  cases hl4 : inst.load with
  | absent => exact main (Or.inl hl4)
  | notCallable => exact main (Or.inr hl4)
  | fn run => simp [hl4, Member.isFunction] at hl

/-- Writing a record with the same id at a position that holds one keeps the ids
of the list. -/
theorem map_id_set (l : List Addon) (i : Nat) (a b : Addon) (h : l[i]? = some a)
    (hid : b.id = a.id) : (l.set i b).map (·.id) = l.map (·.id) := by
  induction l generalizing i with
  | nil => simp
  | cons c rest ih =>
    cases i with
    | zero =>
      simp only [List.getElem?_cons_zero, Option.some.injEq] at h
      simp [List.set, hid, h]
    | succ j =>
      simp only [List.getElem?_cons_succ] at h
      simp [List.set, ih j h]

/-- The record written at a position that holds one is the one read there. -/
theorem getElem?_set_same (l : List Addon) (i : Nat) (a b : Addon) (h : l[i]? = some a) :
    (l.set i b)[i]? = some b := by
  induction l generalizing i with
  | nil => simp at h
  | cons c rest ih =>
    cases i with
    | zero => simp [List.set]
    | succ j =>
      simp only [List.getElem?_cons_succ] at h
      simp [List.set, ih j h]

/-- C5 (amended): when the constructor returns an instance, the four accessor
calls of lines 72-75 return, and `load()` throws a value with message `msg` (an
`Error`), `initializeAddon` returns the `AddonError` with reason
`load() could not be fired.` and that message as its cause, sets
`state[addon.id]` to false (and no other key), and leaves the instance attached
to the record, so that the record stays registered and usable: called on a
record of `addonList`, it leaves the list with the same ids, the record in its
place with the instance attached, and `startPlugin` on that record invokes the
`start()` of the instance.  And when `load` is not a function, whatever the
accessors do, no `load()` error is returned, the state map is as it was, the
instance is attached, and `load` is not called; if moreover the four accessor
calls return, no error at all is returned. -/
theorem initializeAddon_load_hook (rt : Runtime) (state : String → Option Bool)
    (addon : Addon) (inst : Instance) (htype : addon.type = .cls (.ok inst)) :
    (∀ (n au d v : Option String) (msg : String) (stack : Option String),
      inst.getName = .fn (.ok n) → inst.getAuthor = .fn (.ok au) →
      inst.getDescription = .fn (.ok d) → inst.getVersion = .fn (.ok v) →
      inst.load = .fn (.error (.obj ⟨some msg, stack⟩)) →
      (initializeAddon rt state addon).ret
        = .ok (some ⟨jsOr n addon.name, addon.filename, "load() could not be fired.",
            ⟨some msg, stack⟩⟩) ∧
      (initializeAddon rt state addon).state addon.id = some false ∧
      (∀ k, k ≠ addon.id → (initializeAddon rt state addon).state k = state k) ∧
      (initializeAddon rt state addon).addon.plugin = some inst ∧
      (∀ (l : List Addon) (i : Nat), l[i]? = some addon →
        ∃ out, initializeListed rt ⟨l, state⟩ i = some out ∧
          out.ret = (initializeAddon rt state addon).ret ∧
          out.manager.addonList.map (·.id) = l.map (·.id) ∧
          out.manager.addonList[i]? = some (initializeAddon rt state addon).addon ∧
          (inst.start.isFunction = true →
            calls (startPlugin rt out.manager (.addon (initializeAddon rt state addon).addon)).trace
              = [Effect.call addon.id "start" none]))) ∧
    (inst.load.isFunction = false →
      (∀ err, (initializeAddon rt state addon).ret = .ok (some err) →
        err.reason ≠ "load() could not be fired.") ∧
      (initializeAddon rt state addon).state = state ∧
      (initializeAddon rt state addon).addon.plugin = some inst ∧
      (∀ arg, Effect.call addon.id "load" arg ∉ (initializeAddon rt state addon).trace) ∧
      (∀ n au d v : Option String,
        inst.getName = .fn (.ok n) → inst.getAuthor = .fn (.ok au) →
        inst.getDescription = .fn (.ok d) → inst.getVersion = .fn (.ok v) →
        (initializeAddon rt state addon).ret = .ok none)) := by
  have htruthy : addon.type.truthy = true := by simp [htype, JsVal.truthy]
  constructor
  · intro n au d v msg stack hn hau hd hv hl
    obtain ⟨hrec, hthrow, _, _⟩ :=
      initializeAddonBody_constructed rt state addon inst n au d v htype hn hau hd hv
    obtain ⟨hret, hstate⟩ := hthrow _ hl
    simp only [readError, Except.map] at hret
    have heq := initializeAddon_eq_body rt state addon _ htruthy hret
    have hplugin : (initializeAddon rt state addon).addon.plugin = some inst := by
      rw [heq, hrec]
    have hid : (initializeAddon rt state addon).addon.id = addon.id := by
      rw [heq, hrec]
    refine ⟨by rw [heq]; exact hret, by simp [heq, hstate, setState], ?_, hplugin, ?_⟩
    · intro k hk; simp [heq, hstate, setState, hk]
    · intro l i hi
      refine ⟨⟨(initializeAddon rt state addon).ret,
          ⟨l.set i (initializeAddon rt state addon).addon, (initializeAddon rt state addon).state⟩,
          (initializeAddon rt state addon).trace⟩, by simp [initializeListed, hi], rfl, ?_, ?_, ?_⟩
      · exact map_id_set l i addon _ hi hid
      · exact getElem?_set_same l i addon _ hi
      · intro hstart
        have := startPlugin_calls rt
          ⟨l.set i (initializeAddon rt state addon).addon, (initializeAddon rt state addon).state⟩
          (.addon (initializeAddon rt state addon).addon) (initializeAddon rt state addon).addon
          inst rfl hplugin hstart
        rw [hid] at this
        exact this
  · intro hl
    obtain ⟨hstate, hplugin, hnocall, hreason⟩ :=
      initializeAddon_without_load rt state addon inst htype hl
    refine ⟨?_, hstate, hplugin, hnocall, ?_⟩
    · intro err herr hcontra
      have := hreason err herr
      rw [this] at hcontra
      exact absurd hcontra (by decide)
    · intro n au d v hn hau hd hv
      obtain ⟨_, _, hquiet, _⟩ :=
        initializeAddonBody_constructed rt state addon inst n au d v htype hn hau hd hv
      obtain ⟨hret, _⟩ := hquiet (Or.inr hl)
      rw [initializeAddon_eq_body rt state addon _ htruthy hret]
      exact hret

/-- Witness of C5 (amended): `load()` throws `Error("boom")` on an addon marked
enabled; and a class with only `start()` and `stop()`, which has no `load`. -/
theorem initializeAddon_load_hook_witness :
    (initializeAddon sampleRuntime (enableOnly ["Foo"])
      (fooAddon (.cls (.ok (describedInstance (.fn (.error boom))))))).ret
      = .ok (some ⟨some "Foo Deluxe", "foo.plugin.js", "load() could not be fired.",
          ⟨some "boom", some "Error: boom"⟩⟩) ∧
    enableOnly ["Foo"] "Foo" = some true ∧
    (initializeAddon sampleRuntime (enableOnly ["Foo"])
      (fooAddon (.cls (.ok (describedInstance (.fn (.error boom))))))).state "Foo" = some false ∧
    (initializeAddon sampleRuntime (enableOnly ["Foo"])
      (fooAddon (.cls (.ok (describedInstance .absent))))).ret = .ok none ∧
    (initializeAddon sampleRuntime (enableOnly ["Foo"]) (fooAddon fooClass)).state
      = enableOnly ["Foo"] :=
  have thrown := (initializeAddon_load_hook sampleRuntime (enableOnly ["Foo"])
    (fooAddon (.cls (.ok (describedInstance (.fn (.error boom))))))
    (describedInstance (.fn (.error boom))) rfl).1
    (some "Foo Deluxe") none (some "") (some "1.2.0") "boom" (some "Error: boom")
    rfl rfl rfl rfl rfl
  have quiet := (initializeAddon_load_hook sampleRuntime (enableOnly ["Foo"])
    (fooAddon (.cls (.ok (describedInstance .absent)))) (describedInstance .absent) rfl).2 rfl
  have bare := (initializeAddon_load_hook sampleRuntime (enableOnly ["Foo"])
    (fooAddon fooClass) (lifecycleOnly (.ok ()) (.ok ())) rfl).2 rfl
  ⟨thrown.1, by decide, thrown.2.1,
    quiet.2.2.2.2 (some "Foo Deluxe") none (some "") (some "1.2.0") rfl rfl rfl rfl, bare.2.1⟩

/-- Counterexample to C6: on the record named `Foo` whose class has only
`start()` and `stop()`, `initializeAddon` reports a failed construction: the
call `thePlugin.getName()` of line 72 raises and the outer handler catches it. -/
theorem initializeAddon_requires_accessors :
    (initializeAddon sampleRuntime (enableOnly []) (fooAddon fooClass)).ret
      = .ok (some ⟨some "Foo", "foo.plugin.js", "Could not be constructed.",
          sampleRuntime.notFunction "getName"⟩) := by
  rfl

/-- C6 (amended): when the constructor returns an instance whose four accessors
are functions that return `n`, `au`, `d`, `v`, `initializeAddon` attaches the
instance and sets `name` to `n || addon.name`, `author` to
`au || addon.author || "No author"`, `description` to
`d || addon.description || "No description"` and `version` to
`v || addon.version || "No version"`, and returns no error when `load` returns
or is not a function.  Each of the four accessors is required: it is called
with no guard, in the order `getName`, `getAuthor`, `getDescription`,
`getVersion`, and the first one that is not a function makes the result the
`AddonError` with reason `Could not be constructed.`, whose cause is the engine
error of calling it; the instance stays attached, the fields assigned before it
keep their new values, the others are as they were, and `load()` is not
reached. -/
theorem initializeAddon_reads_accessors (rt : Runtime) (state : String → Option Bool)
    (addon : Addon) (inst : Instance) (htype : addon.type = .cls (.ok inst)) :
    (∀ n au d v : Option String,
      inst.getName = .fn (.ok n) → inst.getAuthor = .fn (.ok au) →
      inst.getDescription = .fn (.ok d) → inst.getVersion = .fn (.ok v) →
      (inst.load = .fn (.ok ()) ∨ inst.load.isFunction = false) →
        (initializeAddon rt state addon).ret = .ok none ∧
        (initializeAddon rt state addon).addon
          = { addon with
              plugin := some inst, name := jsOr n addon.name,
              author := jsOr (jsOr au addon.author) (some "No author"),
              description := jsOr (jsOr d addon.description) (some "No description"),
              version := jsOr (jsOr v addon.version) (some "No version") } ∧
        (truthy n = true → (initializeAddon rt state addon).addon.name = n) ∧
        (truthy n = false → (initializeAddon rt state addon).addon.name = addon.name)) ∧
    (inst.getName.isFunction = false →
      (initializeAddon rt state addon).ret
        = .ok (some ⟨addon.name, addon.filename, "Could not be constructed.",
            rt.notFunction "getName"⟩) ∧
      (initializeAddon rt state addon).addon = { addon with plugin := some inst } ∧
      (∀ arg, Effect.call addon.id "load" arg ∉ (initializeAddon rt state addon).trace)) ∧
    (∀ n : Option String, inst.getName = .fn (.ok n) → inst.getAuthor.isFunction = false →
      (initializeAddon rt state addon).ret
        = .ok (some ⟨jsOr n addon.name, addon.filename, "Could not be constructed.",
            rt.notFunction "getAuthor"⟩) ∧
      (initializeAddon rt state addon).addon
        = { addon with plugin := some inst, name := jsOr n addon.name } ∧
      (∀ arg, Effect.call addon.id "load" arg ∉ (initializeAddon rt state addon).trace)) ∧
    (∀ n au : Option String, inst.getName = .fn (.ok n) → inst.getAuthor = .fn (.ok au) →
      inst.getDescription.isFunction = false →
      (initializeAddon rt state addon).ret
        = .ok (some ⟨jsOr n addon.name, addon.filename, "Could not be constructed.",
            rt.notFunction "getDescription"⟩) ∧
      (initializeAddon rt state addon).addon
        = { addon with
            plugin := some inst, name := jsOr n addon.name,
            author := jsOr (jsOr au addon.author) (some "No author") } ∧
      (∀ arg, Effect.call addon.id "load" arg ∉ (initializeAddon rt state addon).trace)) ∧
    (∀ n au d : Option String, inst.getName = .fn (.ok n) → inst.getAuthor = .fn (.ok au) →
      inst.getDescription = .fn (.ok d) → inst.getVersion.isFunction = false →
      (initializeAddon rt state addon).ret
        = .ok (some ⟨jsOr n addon.name, addon.filename, "Could not be constructed.",
            rt.notFunction "getVersion"⟩) ∧
      (initializeAddon rt state addon).addon
        = { addon with
            plugin := some inst, name := jsOr n addon.name,
            author := jsOr (jsOr au addon.author) (some "No author"),
            description := jsOr (jsOr d addon.description) (some "No description") } ∧
      (∀ arg, Effect.call addon.id "load" arg ∉ (initializeAddon rt state addon).trace)) := by
  have htruthy : addon.type.truthy = true := by simp [htype, JsVal.truthy]
  refine ⟨?_, ?_, ?_, ?_, ?_⟩
  · intro n au d v hn hau hd hv hl
    obtain ⟨hrec, _, hquiet, _⟩ :=
      initializeAddonBody_constructed rt state addon inst n au d v htype hn hau hd hv
    obtain ⟨hret, _⟩ := hquiet hl
    rw [initializeAddon_eq_body rt state addon _ htruthy hret]
    refine ⟨hret, hrec, ?_, ?_⟩
    · intro hn2; rw [hrec]; simp [jsOr, hn2]
    · intro hn2; rw [hrec]; simp [jsOr, hn2]
  · intro hn
    have hbody : initializeAddonBody rt state addon
        = ⟨.error (.obj (rt.notFunction "getName")), { addon with plugin := some inst }, state,
            [.construct addon.id]⟩ := by
      cases hn2 : inst.getName with
      | absent => simp [initializeAddonBody, construct, htype, callAccessor, hn2]
      | notCallable => simp [initializeAddonBody, construct, htype, callAccessor, hn2]
      | fn run => simp [hn2, Member.isFunction] at hn
    simp [initializeAddon, htruthy, hbody, readError]
  · intro n hn hau
    have hbody : initializeAddonBody rt state addon
        = ⟨.error (.obj (rt.notFunction "getAuthor")),
            { addon with plugin := some inst, name := jsOr n addon.name }, state,
            [.construct addon.id, .call addon.id "getName" none]⟩ := by
      cases hau2 : inst.getAuthor with
      | absent => simp [initializeAddonBody, construct, htype, callAccessor, hn, hau2]
      | notCallable => simp [initializeAddonBody, construct, htype, callAccessor, hn, hau2]
      | fn run => simp [hau2, Member.isFunction] at hau
    simp [initializeAddon, htruthy, hbody, readError]
  · intro n au hn hau hd
    have hbody : initializeAddonBody rt state addon
        = ⟨.error (.obj (rt.notFunction "getDescription")),
            { addon with
              plugin := some inst, name := jsOr n addon.name,
              author := jsOr (jsOr au addon.author) (some "No author") }, state,
            [.construct addon.id, .call addon.id "getName" none,
             .call addon.id "getAuthor" none]⟩ := by
      cases hd2 : inst.getDescription with
      | absent => simp [initializeAddonBody, construct, htype, callAccessor, hn, hau, hd2]
      | notCallable => simp [initializeAddonBody, construct, htype, callAccessor, hn, hau, hd2]
      | fn run => simp [hd2, Member.isFunction] at hd
    simp [initializeAddon, htruthy, hbody, readError]
  · intro n au d hn hau hd hv
    have hbody : initializeAddonBody rt state addon
        = ⟨.error (.obj (rt.notFunction "getVersion")),
            { addon with
              plugin := some inst, name := jsOr n addon.name,
              author := jsOr (jsOr au addon.author) (some "No author"),
              description := jsOr (jsOr d addon.description) (some "No description") }, state,
            [.construct addon.id, .call addon.id "getName" none,
             .call addon.id "getAuthor" none, .call addon.id "getDescription" none]⟩ := by
      cases hv2 : inst.getVersion with
      | absent => simp [initializeAddonBody, construct, htype, callAccessor, hn, hau, hd, hv2]
      | notCallable =>
        simp [initializeAddonBody, construct, htype, callAccessor, hn, hau, hd, hv2]
      | fn run => simp [hv2, Member.isFunction] at hv
    simp [initializeAddon, htruthy, hbody, readError]

/-- Witness of C6 (amended): an instance that reports a name and a version; and
an instance with `getName` only, which fails at `getAuthor`. -/
theorem initializeAddon_reads_accessors_witness :
    (initializeAddon sampleRuntime (enableOnly [])
      (fooAddon (.cls (.ok (describedInstance .absent))))).ret = .ok none ∧
    (initializeAddon sampleRuntime (enableOnly [])
      (fooAddon (.cls (.ok (describedInstance .absent))))).addon.name = some "Foo Deluxe" ∧
    (initializeAddon sampleRuntime (enableOnly []) (fooAddon (.cls (.ok nameOnlyInstance)))).ret
      = .ok (some ⟨some "Foo Deluxe", "foo.plugin.js", "Could not be constructed.",
          sampleRuntime.notFunction "getAuthor"⟩) :=
  have key := (initializeAddon_reads_accessors sampleRuntime (enableOnly [])
    (fooAddon (.cls (.ok (describedInstance .absent)))) (describedInstance .absent) rfl).1
    (some "Foo Deluxe") none (some "") (some "1.2.0") rfl rfl rfl rfl (Or.inr rfl)
  have fails := (initializeAddon_reads_accessors sampleRuntime (enableOnly [])
    (fooAddon (.cls (.ok nameOnlyInstance))) nameOnlyInstance rfl).2.2.1
    (some "Foo Deluxe") rfl rfl
  ⟨key.1, key.2.2.1 (by decide), fails.1⟩

/-! ## `getFileModification` -/

/-- Counterexample to C10: for the exports `{name: "Foo", type: C}` the
resulting type is the whole exports object, not `exports.type` (which is `C`),
and the name is the one of `meta`, not the `Foo` of the exports. -/
theorem getFileModification_type_is_whole_exports :
    (getFileModification sampleIsEmpty sampleStringify fooModule "" fooMeta).ret = .ok "" ∧
    (getFileModification sampleIsEmpty sampleStringify fooModule "" fooMeta).meta.type = fooExports ∧
    fooExports.get "type" = fooClass ∧
    (getFileModification sampleIsEmpty sampleStringify fooModule "" fooMeta).meta.type ≠ fooClass ∧
    fooExports.get "name" = .str "Foo" ∧
    (getFileModification sampleIsEmpty sampleStringify fooModule "" fooMeta).meta.name
      = some "foo" := by
  refine ⟨rfl, rfl, by simp [fooExports, JsVal.get], ?_, by simp [fooExports, JsVal.get], rfl⟩
  intro h
  have h2 : fooExports = fooClass := h
  simp [fooExports, fooClass] at h2

/-- C10 (amended): when the compiled module leaves a value in `module.exports`
that `Utilities.isEmpty` does not count as empty, `getFileModification` returns
the empty string (no rewrite), keeps every metadata field of `meta` as it was
except `type`, sets `meta.type` to the whole value of `module.exports` (so the
type is the exported value itself, a class when the module exports a class),
and makes `meta` the new `module.exports`. -/
theorem getFileModification_exported (isEmpty : JsVal → Bool) (stringify : Addon → String)
    (module : Module) (fileContent : String) (meta : Addon)
    (hcompiled : (module._compile fileContent module.filename).raised = none)
    (hexported : isEmpty (module._compile fileContent module.filename).exports = false) :
    (getFileModification isEmpty stringify module fileContent meta).ret = .ok "" ∧
    (getFileModification isEmpty stringify module fileContent meta).meta
      = { meta with type := (module._compile fileContent module.filename).exports } ∧
    (getFileModification isEmpty stringify module fileContent meta).meta.name = meta.name ∧
    (getFileModification isEmpty stringify module fileContent meta).exports
      = .record { meta with type := (module._compile fileContent module.filename).exports } := by
  simp [getFileModification, hcompiled, hexported]

/-- Witness of C10 (amended): a module whose source assigns `fooExports`. -/
theorem getFileModification_exported_witness :
    sampleIsEmpty (fooModule._compile "" fooModule.filename).exports = false ∧
    (getFileModification sampleIsEmpty sampleStringify fooModule "" fooMeta).ret = .ok "" ∧
    (getFileModification sampleIsEmpty sampleStringify fooModule "" fooMeta).meta.name
      = some "foo" :=
  have key := getFileModification_exported sampleIsEmpty sampleStringify fooModule "" fooMeta rfl rfl
  ⟨rfl, key.1, key.2.2.1⟩

end PluginManager
